import Mathlib

/-!
Verification development for the tap-openmeteo incremental extraction engine.

The definitions below are a shallow embedding of `tap_openmeteo/client.py` and
`tap_openmeteo/streams.py`:
* Python dicts holding URL parameters / records become association lists over a
  JSON-like `Value` type, with `dset` (dict assignment), `dpop` (dict.pop) and
  `dlookup` (dict.get) mirroring Python dict semantics (unique keys, insertion
  order, in-place overwrite).
* `datetime.fromisoformat` is embedded as `fromisoformat`, covering the strict
  ISO-8601 subset `YYYY-MM-DD[{T or space}HH[:MM[:SS]][+HH:MM or -HH:MM]]`
  (the subset accepted by every CPython version the tap supports; fractional
  seconds are out of the model).  Date arithmetic (`timedelta`) uses the
  proleptic Gregorian calendar via the standard days-from-civil conversion,
  which is exactly `datetime`'s calendar.
* `datetime.now(timezone.utc)` becomes an explicit `now : PyDateTime` argument;
  the machine-local UTC offset used by naive `datetime.timestamp()` becomes an
  explicit integer argument.
-/

/-- JSON-like scalar values stored in parameter dicts and records. -/
inductive Value where
  | null : Value
  | bool : Bool → Value
  | str : String → Value
  | int : Int → Value
  | num : Rat → Value
  | strlist : List String → Value
deriving DecidableEq, Repr

/-- A Python dict with string keys, embedded as an association list. -/
abbrev Dict := List (String × Value)

/-- Membership test for a key, `k in d`. -/
def dcontains (d : Dict) (k : String) : Bool :=
  match d with
  | [] => false
  | p :: rest => p.1 == k || dcontains rest k

/-- Python dict assignment `d[k] = v`: overwrite in place if the key exists,
append otherwise. -/
def dset (d : Dict) (k : String) (v : Value) : Dict :=
  match d with
  | [] => [(k, v)]
  | p :: rest => if p.1 == k then (k, v) :: rest else p :: dset rest k v

/-- Python `d.pop(k, None)`: the dict without key `k`. -/
def dpop (d : Dict) (k : String) : Dict :=
  match d with
  | [] => []
  | p :: rest => if p.1 == k then dpop rest k else p :: dpop rest k

/-- Python `d.get(k)` as an option. -/
def dlookup (d : Dict) (k : String) : Option Value :=
  match d with
  | [] => none
  | p :: rest => if p.1 == k then some p.2 else dlookup rest k

/-- The key list of a dict. -/
def dkeys (d : Dict) : List String := d.map Prod.fst

/-- Key presence as a proposition. -/
def hasKey (d : Dict) (k : String) : Prop := dcontains d k = true

instance (d : Dict) (k : String) : Decidable (hasKey d k) := by
  unfold hasKey; infer_instance

theorem hasKey_nil (k : String) : ¬ hasKey [] k := by
  simp [hasKey, dcontains]

theorem dcontains_dset (d : Dict) (k0 k : String) (v : Value) :
    dcontains (dset d k0 v) k = (dcontains d k || k0 == k) := by
  induction d with
  | nil => simp [dset, dcontains]
  | cons p rest ih =>
    simp only [dset]
    by_cases h : p.1 = k0
    · cases hb : (k0 == k) <;> simp [h, dcontains, hb]
    · simp [dcontains, h, ih, Bool.or_assoc]

theorem hasKey_dset (d : Dict) (k0 k : String) (v : Value) :
    hasKey (dset d k0 v) k ↔ hasKey d k ∨ k = k0 := by
  unfold hasKey
  rw [dcontains_dset]
  simp only [Bool.or_eq_true, beq_iff_eq]
  exact or_congr Iff.rfl eq_comm

theorem dcontains_dpop (d : Dict) (k0 k : String) :
    dcontains (dpop d k0) k = (dcontains d k && !(k == k0)) := by
  induction d with
  | nil => simp [dpop, dcontains]
  | cons p rest ih =>
    simp only [dpop]
    by_cases h : p.1 = k0
    · cases hb : (k == k0)
      · have hne : k ≠ k0 := beq_eq_false_iff_ne.mp hb
        have hne' : k0 ≠ k := fun he => hne he.symm
        simp [h, dcontains, ih, hb, hne, hne']
      · have hk0 : k = k0 := beq_iff_eq.mp hb
        subst hk0
        simp [h, dcontains, ih]
    · cases hb : (k == k0)
      · simp [dcontains, h, ih, hb]
      · have hk0 : k = k0 := beq_iff_eq.mp hb
        subst hk0
        have hpk : (p.1 == k) = false := beq_eq_false_iff_ne.mpr h
        simp [dcontains, ih, hpk]

theorem hasKey_dpop (d : Dict) (k0 k : String) :
    hasKey (dpop d k0) k ↔ hasKey d k ∧ k ≠ k0 := by
  unfold hasKey
  rw [dcontains_dpop]
  simp

theorem dlookup_dset_self (d : Dict) (k : String) (v : Value) :
    dlookup (dset d k v) k = some v := by
  induction d with
  | nil => simp [dset, dlookup]
  | cons p rest ih =>
    simp only [dset]
    by_cases h : p.1 = k
    · simp [h, dlookup]
    · simp [dlookup, h, ih]

theorem dlookup_dset_ne (d : Dict) (k0 k : String) (v : Value) (h : k ≠ k0) :
    dlookup (dset d k0 v) k = dlookup d k := by
  induction d with
  | nil => simp [dset, dlookup, h, Ne.symm h]
  | cons p rest ih =>
    simp only [dset]
    by_cases hp : p.1 = k0
    · simp [hp, dlookup, h, Ne.symm h]
    · simp [dlookup, hp, ih]

theorem dlookup_dpop_ne (d : Dict) (k0 k : String) (h : k ≠ k0) :
    dlookup (dpop d k0) k = dlookup d k := by
  induction d with
  | nil => simp [dpop, dlookup]
  | cons p rest ih =>
    simp only [dpop]
    by_cases hp : p.1 = k0
    · have hpk : p.1 ≠ k := by rw [hp]; exact fun he => h he.symm
      have h' : k0 ≠ k := fun he => h he.symm
      simp [hp, dlookup, hpk, ih, h']
    · by_cases hk : p.1 = k
      · simp [dlookup, hp, hk, h]
      · simp [dlookup, hp, hk, ih]

theorem mem_dkeys_iff_hasKey (d : Dict) (k : String) :
    k ∈ dkeys d ↔ hasKey d k := by
  induction d with
  | nil => simp [dkeys, hasKey, dcontains]
  | cons p rest ih =>
    simp only [dkeys, List.map_cons, List.mem_cons, hasKey, dcontains,
      Bool.or_eq_true, beq_iff_eq] at *
    constructor
    · rintro (h | h)
      · exact Or.inl h.symm
      · exact Or.inr (ih.mp h)
    · rintro (h | h)
      · exact Or.inl h.symm
      · exact Or.inr (ih.mpr h)

theorem mem_dkeys_dset (d : Dict) (k0 k : String) (v : Value) :
    k ∈ dkeys (dset d k0 v) ↔ k ∈ dkeys d ∨ k = k0 := by
  rw [mem_dkeys_iff_hasKey, mem_dkeys_iff_hasKey, hasKey_dset]

theorem dkeys_nil : dkeys [] = [] := rfl

/-- Key membership after a Python `for var in vars: d[var] = g(var)` loop. -/
theorem mem_dkeys_foldl_dset (vars : List String) (g : String → Value)
    (d0 : Dict) (k : String) :
    k ∈ dkeys (vars.foldl (fun d v => dset d v (g v)) d0) ↔
      k ∈ dkeys d0 ∨ k ∈ vars := by
  induction vars generalizing d0 with
  | nil => simp
  | cons v rest ih =>
    simp only [List.foldl, ih, mem_dkeys_dset, List.mem_cons]
    tauto

/-- Lookup after the loop, for a key not touched by the loop. -/
theorem dlookup_foldl_dset_not_mem (vars : List String) (g : String → Value)
    (d0 : Dict) (k : String) (hk : k ∉ vars) :
    dlookup (vars.foldl (fun d v => dset d v (g v)) d0) k = dlookup d0 k := by
  induction vars generalizing d0 with
  | nil => simp
  | cons v rest ih =>
    simp only [List.mem_cons, not_or] at hk
    simp only [List.foldl]
    rw [ih _ hk.2, dlookup_dset_ne _ _ _ _ hk.1]

/-- Lookup after a `for var in vars: d[var] = g(var)` loop, for a key in the
loop's variable list: the written value depends only on the key, so the loop
leaves exactly `g k` there. -/
theorem dlookup_foldl_dset_mem (vars : List String) (g : String → Value)
    (d0 : Dict) (k : String) (hk : k ∈ vars) :
    dlookup (vars.foldl (fun d v => dset d v (g v)) d0) k = some (g k) := by
  induction vars generalizing d0 with
  | nil => simp at hk
  | cons v rest ih =>
    simp only [List.foldl]
    by_cases hr : k ∈ rest
    · exact ih (dset d0 v (g v)) hr
    · have hv : k = v := by
        rcases List.mem_cons.mp hk with h | h
        · exact h
        · exact absurd h hr
      rw [dlookup_foldl_dset_not_mem rest g _ k hr, hv, dlookup_dset_self]

/-- Days since 1970-01-01 of a proleptic Gregorian civil date (the standard
days-from-civil algorithm, which is the calendar of Python `datetime`). -/
def daysFromCivil (y m d : Int) : Int :=
  let y1 := if m ≤ 2 then y - 1 else y
  let era := (if 0 ≤ y1 then y1 else y1 - 399) / 400
  let yoe := y1 - era * 400
  let mp := if 2 < m then m - 3 else m + 9
  let doy := (153 * mp + 2) / 5 + d - 1
  let doe := yoe * 365 + yoe / 4 - yoe / 100 + doy
  era * 146097 + doe - 719468

/-- Civil date (year, month, day) of a count of days since 1970-01-01. -/
def civilFromDays (z0 : Int) : Int × Int × Int :=
  let z := z0 + 719468
  let era := (if 0 ≤ z then z else z - 146096) / 146097
  let doe := z - era * 146097
  let yoe := (doe - doe / 1460 + doe / 36524 - doe / 146096) / 365
  let y := yoe + era * 400
  let doy := doe - (365 * yoe + yoe / 4 - yoe / 100)
  let mp := (5 * doy + 2) / 153
  let d := doy - (153 * mp + 2) / 5 + 1
  let m := if mp < 10 then mp + 3 else mp - 9
  (if m ≤ 2 then y + 1 else y, m, d)

/-- A Python `datetime.datetime` value at second precision.  `tzOffsetMin` is
`none` for a naive datetime and the UTC offset in minutes for an aware one. -/
structure PyDateTime where
  year : Int
  month : Int
  day : Int
  hour : Int
  minute : Int
  second : Int
  tzOffsetMin : Option Int
deriving DecidableEq, Repr

/-- Seconds since the epoch of the civil (wall-clock) fields, ignoring any
timezone, as `timedelta` arithmetic does. -/
def toEpochSeconds (dt : PyDateTime) : Int :=
  daysFromCivil dt.year dt.month dt.day * 86400 +
    dt.hour * 3600 + dt.minute * 60 + dt.second

/-- The datetime whose civil fields denote `t` seconds since the epoch,
carrying timezone `tz`. -/
def ofEpochSeconds (tz : Option Int) (t : Int) : PyDateTime :=
  let days := t / 86400
  let rem := t % 86400
  let c := civilFromDays days
  { year := c.1, month := c.2.1, day := c.2.2,
    hour := rem / 3600, minute := (rem % 3600) / 60, second := rem % 60,
    tzOffsetMin := tz }

/-- `dt + timedelta(seconds=s)`: shifts the wall clock, keeps the tzinfo. -/
def addSeconds (dt : PyDateTime) (s : Int) : PyDateTime :=
  ofEpochSeconds dt.tzOffsetMin (toEpochSeconds dt + s)

/-- `dt + timedelta(hours=h)`. -/
def addHours (dt : PyDateTime) (h : Int) : PyDateTime := addSeconds dt (h * 3600)

/-- `dt + timedelta(days=d)`. -/
def addDays (dt : PyDateTime) (d : Int) : PyDateTime := addSeconds dt (d * 86400)

/-- `int(dt.timestamp())`: an aware datetime uses its own offset, a naive one
is interpreted in the machine-local timezone (`localOffsetSec` seconds east of
UTC). -/
def pyTimestamp (localOffsetSec : Int) (dt : PyDateTime) : Int :=
  match dt.tzOffsetMin with
  | some off => toEpochSeconds dt - off * 60
  | none => toEpochSeconds dt - localOffsetSec

/-- Two-digit zero-padded decimal rendering (for fields in 0..99). -/
def pad2 (n : Int) : String :=
  (if n < 10 then "0" else "") ++ toString n

/-- Four-digit zero-padded decimal rendering (for years in 0..9999). -/
def pad4 (n : Int) : String :=
  (if n < 10 then "000" else if n < 100 then "00" else if n < 1000 then "0" else "") ++
    toString n

/-- `dt.strftime("%Y-%m-%dT%H:%M")`. -/
def strftimeYmdHM (dt : PyDateTime) : String :=
  pad4 dt.year ++ "-" ++ pad2 dt.month ++ "-" ++ pad2 dt.day ++ "T" ++
    pad2 dt.hour ++ ":" ++ pad2 dt.minute

/-- `dt.strftime("%Y-%m-%d")`. -/
def strftimeYmd (dt : PyDateTime) : String :=
  pad4 dt.year ++ "-" ++ pad2 dt.month ++ "-" ++ pad2 dt.day

/-- `datetime.fromtimestamp(t, tz=timezone.utc).isoformat()` for an integral
timestamp. -/
def pyFromtimestampUTCIso (t : Int) : String :=
  let dt := ofEpochSeconds (some 0) t
  strftimeYmd dt ++ "T" ++ pad2 dt.hour ++ ":" ++ pad2 dt.minute ++ ":" ++
    pad2 dt.second ++ "+00:00"

/-- `datetime.isoformat()` of an aware UTC datetime at second precision
(microseconds are outside the model). -/
def pyIsoformatUTC (dt : PyDateTime) : String :=
  strftimeYmd dt ++ "T" ++ pad2 dt.hour ++ ":" ++ pad2 dt.minute ++ ":" ++
    pad2 dt.second ++ "+00:00"

/-- Numeric value of a decimal digit character. -/
def digitVal (c : Char) : Int := (c.toNat : Int) - 48

/-- Read exactly two decimal digits. -/
def read2 : List Char → Option (Int × List Char)
  | a :: b :: rest =>
    if a.isDigit && b.isDigit then some (digitVal a * 10 + digitVal b, rest)
    else none
  | _ => none

/-- Read exactly four decimal digits. -/
def read4 : List Char → Option (Int × List Char)
  | a :: b :: c :: d :: rest =>
    if a.isDigit && b.isDigit && c.isDigit && d.isDigit then
      some (digitVal a * 1000 + digitVal b * 100 + digitVal c * 10 + digitVal d, rest)
    else none
  | _ => none

/-- Gregorian leap-year rule. -/
def isLeapYear (y : Int) : Bool :=
  (y % 4 == 0 && y % 100 != 0) || (y % 400 == 0)

/-- Length of a month, as `datetime` validates it. -/
def daysInMonth (y m : Int) : Int :=
  if m == 2 then (if isLeapYear y then 29 else 28)
  else if m == 4 || m == 6 || m == 9 || m == 11 then 30
  else 31

/-- Read a `+HH:MM` / `-HH:MM` UTC offset body (sign already consumed),
requiring the input to end there; the result is in minutes. -/
def readOffset (sign : Int) (cs : List Char) : Option Int :=
  match read2 cs with
  | some (hh, ':' :: rest) =>
    match read2 rest with
    | some (mm, []) => if hh < 24 ∧ mm < 60 then some (sign * (hh * 60 + mm)) else none
    | _ => none
  | _ => none

/-- Read `HH[:MM[:SS]]`. -/
def readTime (cs : List Char) : Option (Int × Int × Int × List Char) :=
  match read2 cs with
  | some (hh, rest) =>
    match rest with
    | ':' :: rest2 =>
      match read2 rest2 with
      | some (mm, rest3) =>
        match rest3 with
        | ':' :: rest4 =>
          match read2 rest4 with
          | some (ss, rest5) => some (hh, mm, ss, rest5)
          | none => none
        | _ => some (hh, mm, 0, rest3)
      | none => none
    | _ => some (hh, 0, 0, rest)
  | none => none

/-- `datetime.fromisoformat` on the strict common ISO-8601 subset
`YYYY-MM-DD[{T or space}HH[:MM[:SS]][+HH:MM or -HH:MM]]`, with full
date/time field validation; `none` models `ValueError`. -/
def fromisoformatChars (cs : List Char) : Option PyDateTime :=
  match read4 cs with
  | some (y, '-' :: r1) =>
    match read2 r1 with
    | some (mo, '-' :: r2) =>
      match read2 r2 with
      | some (d, r3) =>
        if 1 ≤ mo ∧ mo ≤ 12 ∧ 1 ≤ d ∧ d ≤ daysInMonth y mo then
          match r3 with
          | [] => some ⟨y, mo, d, 0, 0, 0, none⟩
          | sep :: r4 =>
            if sep = 'T' ∨ sep = ' ' then
              match readTime r4 with
              | some (hh, mm, ss, r5) =>
                if hh ≤ 23 ∧ mm ≤ 59 ∧ ss ≤ 59 then
                  match r5 with
                  | [] => some ⟨y, mo, d, hh, mm, ss, none⟩
                  | '+' :: r6 =>
                    (readOffset 1 r6).map (fun off => ⟨y, mo, d, hh, mm, ss, some off⟩)
                  | '-' :: r6 =>
                    (readOffset (-1) r6).map (fun off => ⟨y, mo, d, hh, mm, ss, some off⟩)
                  | _ => none
                else none
              | none => none
            else none
        else none
      | _ => none
    | _ => none
  | _ => none

/-- `datetime.fromisoformat` on strings. -/
def fromisoformat (s : String) : Option PyDateTime := fromisoformatChars s.data

/-- `s.replace("Z", "+00:00")`. -/
def replaceZChars : List Char → List Char
  | [] => []
  | c :: rest =>
    if c = 'Z' then '+' :: '0' :: '0' :: ':' :: '0' :: '0' :: replaceZChars rest
    else c :: replaceZChars rest

/-- `s.replace("Z", "+00:00")` on strings. -/
def pyReplaceZ (s : String) : String := String.mk (replaceZChars s.data)

/-- One entry of the `locations` config list (tap.py config schema: `name`,
`latitude`, `longitude` required, `elevation` and `timezone` optional). -/
structure LocationConf where
  name : String
  latitude : Rat
  longitude : Rat
  elevation : Option Rat
  timezone : Option String
deriving DecidableEq, Repr

/-- The tap configuration fields read by the parameter builders and
flatteners (tap.py `config_jsonschema`); `none` models an absent key, so
`Option.getD` embeds `config.get(key, default)`. -/
structure Config where
  locations : List LocationConf
  timezone : Option String
  forecast_days : Option Int
  forecast_hours : Option Int
  past_days : Option Int
  past_hours : Option Int
  start_date : Option String
  end_date : Option String
  hourly_variables : Option (List String)
  daily_variables : Option (List String)
  current_variables : Option (List String)
  minutely_15_variables : Option (List String)
  temperature_unit : Option String
  wind_speed_unit : Option String
  precipitation_unit : Option String
  timeformat : Option String
  models : List String
  cell_selection : Option String
  api_key : Option String
  tilt : Option Rat
  azimuth : Option Rat
deriving DecidableEq, Repr

/-- A per-location stream context as built by `get_location_contexts` (or as
handed in by the SDK); coordinate values pass through untyped. -/
structure Context where
  location_name : String
  latitude : Value
  longitude : Value
  elevation : Option Value
  timezone : Option String
deriving DecidableEq, Repr

/-- The replication-state gate of `get_url_params`: the stored
`replication_key_value` is used only when the state is truthy, the value is
truthy and it is a string — i.e. exactly when it is a nonempty string. -/
def stateStr : Option Value → Option String
  | some (Value.str s) => if s = "" then none else some s
  | _ => none

/-- Python truthiness of an optional string (`not start_date`). -/
def optFalsy : Option String → Bool
  | none => true
  | some s => s == ""

/-- Default hourly variable list used in `WeatherHourlyStream` and
`WeatherHistoricalStream` (`config.get("hourly_variables", [...])`). -/
def defaultHourlyVariables : List String :=
  ["temperature_2m", "relative_humidity_2m", "precipitation", "weather_code"]

/-- Default daily variable list used in `WeatherDailyStream`. -/
def defaultDailyVariables : List String :=
  ["weather_code", "temperature_2m_max", "temperature_2m_min", "precipitation_sum"]

/-- Default current-conditions variable list used in `WeatherCurrentStream`. -/
def defaultCurrentVariables : List String :=
  ["temperature_2m", "relative_humidity_2m", "apparent_temperature", "is_day",
   "precipitation", "weather_code", "cloud_cover", "wind_speed_10m",
   "wind_direction_10m"]

/-- Default 15-minutely variable list used in `WeatherMinutely15Stream`. -/
def defaultMinutely15Variables : List String :=
  ["temperature_2m", "precipitation", "weather_code"]

/-- `config.get("hourly_variables", defaults)`. -/
def hourlyVarsOf (cfg : Config) : List String :=
  cfg.hourly_variables.getD defaultHourlyVariables

/-- `config.get("daily_variables", defaults)`. -/
def dailyVarsOf (cfg : Config) : List String :=
  cfg.daily_variables.getD defaultDailyVariables

/-- `config.get("current_variables", defaults)`. -/
def currentVarsOf (cfg : Config) : List String :=
  cfg.current_variables.getD defaultCurrentVariables

/-- `config.get("minutely_15_variables", defaults)`. -/
def minutely15VarsOf (cfg : Config) : List String :=
  cfg.minutely_15_variables.getD defaultMinutely15Variables

/-- `client.py` `OpenMeteoStream.get_url_params`, location block: latitude,
longitude, optional elevation and timezone from the context, falling back to
the first configured location when there is no context. -/
def locationParams (cfg : Config) (ctx : Option Context) : Dict :=
  let params : Dict := []
  match ctx with
  | some c =>
    let params := dset params "latitude" c.latitude
    let params := dset params "longitude" c.longitude
    let params :=
      match c.elevation with
      | some e => dset params "elevation" e
      | none => params
    let tzv : String :=
      match c.timezone with
      | some tz => if tz = "" then cfg.timezone.getD "auto" else tz
      | none => cfg.timezone.getD "auto"
    dset params "timezone" (Value.str tzv)
  | none =>
    match cfg.locations with
    | [] => params
    | loc :: _ =>
      let params := dset params "latitude" (Value.num loc.latitude)
      let params := dset params "longitude" (Value.num loc.longitude)
      let params :=
        match loc.elevation with
        | some e => dset params "elevation" (Value.num e)
        | none => params
      dset params "timezone" (Value.str (match loc.timezone with
        | some tz => tz
        | none => cfg.timezone.getD "auto"))

/-- `client.py` unit-configuration block: each unit parameter is emitted only
when it differs from the upstream default (and `temperature_unit` only when it
is exactly `"fahrenheit"`). -/
def unitParams (cfg : Config) (params : Dict) : Dict :=
  let temp_unit := cfg.temperature_unit.getD "celsius"
  let params :=
    if temp_unit = "fahrenheit" then dset params "temperature_unit" (Value.str "fahrenheit")
    else params
  let wind_unit := cfg.wind_speed_unit.getD "kmh"
  let params :=
    if wind_unit ≠ "kmh" then dset params "wind_speed_unit" (Value.str wind_unit)
    else params
  let precip_unit := cfg.precipitation_unit.getD "mm"
  let params :=
    if precip_unit ≠ "mm" then dset params "precipitation_unit" (Value.str precip_unit)
    else params
  let timeformat := cfg.timeformat.getD "iso8601"
  if timeformat ≠ "iso8601" then dset params "timeformat" (Value.str timeformat)
  else params

/-- `client.py` model-selection block. -/
def modelParams (cfg : Config) (params : Dict) : Dict :=
  if cfg.models.isEmpty then params
  else dset params "models" (Value.str (String.intercalate "," cfg.models))

/-- `client.py` grid-cell-selection block. -/
def cellSelectionParams (cfg : Config) (params : Dict) : Dict :=
  let cell_selection := cfg.cell_selection.getD "land"
  if cell_selection ≠ "land" then dset params "cell_selection" (Value.str cell_selection)
  else params

/-- `client.py` commercial API-key block (`if api_key:` truthiness). -/
def apiKeyParams (cfg : Config) (params : Dict) : Dict :=
  match cfg.api_key with
  | some key => if key = "" then params else dset params "apikey" (Value.str key)
  | none => params

/-- `client.py` solar-panel geometry block. -/
def panelParams (cfg : Config) (params : Dict) : Dict :=
  let params :=
    match cfg.tilt with
    | some t => dset params "tilt" (Value.num t)
    | none => params
  match cfg.azimuth with
  | some a => dset params "azimuth" (Value.num a)
  | none => params

/-- `OpenMeteoStream.get_url_params` (client.py): the shared parameter set
every stream starts from. -/
def OpenMeteoStream.get_url_params (cfg : Config) (ctx : Option Context) : Dict :=
  panelParams cfg (apiKeyParams cfg (cellSelectionParams cfg
    (modelParams cfg (unitParams cfg (locationParams cfg ctx)))))

/-- Forecast/past window in relative mode, hours preferred over days
(shared shape of the hourly/daily/forecast streams' window block). -/
def relForecastWindow (cfg : Config) (params : Dict) : Dict :=
  match cfg.forecast_hours with
  | some fh => dset params "forecast_hours" (Value.int fh)
  | none => dset params "forecast_days" (Value.int (cfg.forecast_days.getD 7))

/-- Past-window half of the relative window block. -/
def relPastWindow (cfg : Config) (params : Dict) : Dict :=
  match cfg.past_hours with
  | some ph => dset params "past_hours" (Value.int ph)
  | none => dset params "past_days" (Value.int (cfg.past_days.getD 0))

/-- `WeatherForecastStream.get_url_params` (streams.py). -/
def WeatherForecastStream.get_url_params (cfg : Config) (ctx : Option Context) : Dict :=
  let params := OpenMeteoStream.get_url_params cfg ctx
  let params := relForecastWindow cfg params
  let params := relPastWindow cfg params
  let hourly_vars := cfg.hourly_variables.getD ["temperature_2m"]
  if hourly_vars.isEmpty then params
  else dset params "hourly" (Value.str (String.intercalate "," (hourly_vars.take 1)))

/-- `WeatherHourlyStream.get_url_params` (streams.py): relative window,
variable list, then the incremental-state block, which on a parseable stored
replication value switches to the absolute `start_hour`/`end_hour` window and
removes the four mutually-exclusive relative keys. -/
def WeatherHourlyStream.get_url_params (cfg : Config) (ctx : Option Context)
    (st : Option Value) (now : PyDateTime) : Dict :=
  let params := OpenMeteoStream.get_url_params cfg ctx
  let params := relForecastWindow cfg params
  let params := relPastWindow cfg params
  let params := dset params "hourly" (Value.str (String.intercalate "," (hourlyVarsOf cfg)))
  match stateStr st with
  | none => params
  | some last_sync =>
    match fromisoformat (pyReplaceZ last_sync) with
    | none => params
    | some dt =>
      let params := dset params "start_hour" (Value.str (strftimeYmdHM dt))
      let forecast_hours := cfg.forecast_hours.getD 48
      let end_dt := addHours now forecast_hours
      let params := dset params "end_hour" (Value.str (strftimeYmdHM end_dt))
      dpop (dpop (dpop (dpop params "forecast_hours") "past_hours") "forecast_days") "past_days"

/-- `WeatherDailyStream.get_url_params` (streams.py). -/
def WeatherDailyStream.get_url_params (cfg : Config) (ctx : Option Context)
    (st : Option Value) (now : PyDateTime) : Dict :=
  let params := OpenMeteoStream.get_url_params cfg ctx
  let params := relForecastWindow cfg params
  let params := relPastWindow cfg params
  let params := dset params "daily" (Value.str (String.intercalate "," (dailyVarsOf cfg)))
  match stateStr st with
  | none => params
  | some last_sync =>
    match fromisoformat (pyReplaceZ last_sync) with
    | none => params
    | some dt =>
      let params := dset params "start_date" (Value.str (strftimeYmd dt))
      let forecast_days := cfg.forecast_days.getD 7
      let end_dt := addDays now forecast_days
      let params := dset params "end_date" (Value.str (strftimeYmd end_dt))
      dpop (dpop (dpop (dpop params "forecast_hours") "past_hours") "forecast_days") "past_days"

/-- `WeatherCurrentStream.get_url_params` (streams.py). -/
def WeatherCurrentStream.get_url_params (cfg : Config) (ctx : Option Context) : Dict :=
  let params := OpenMeteoStream.get_url_params cfg ctx
  dset params "current" (Value.str (String.intercalate "," (currentVarsOf cfg)))

/-- `WeatherMinutely15Stream.get_url_params` (streams.py). -/
def WeatherMinutely15Stream.get_url_params (cfg : Config) (ctx : Option Context) : Dict :=
  let params := OpenMeteoStream.get_url_params cfg ctx
  let params := relForecastWindow cfg params
  let minutely_vars := minutely15VarsOf cfg
  if minutely_vars.isEmpty then params
  else dset params "minutely_15" (Value.str (String.intercalate "," minutely_vars))

/-- `WeatherHistoricalStream.get_url_params` (streams.py): unconditional
absolute `start_date`/`end_date`, from the checkpoint when parseable, else
config, else the 30-days-ago / yesterday defaults. -/
def WeatherHistoricalStream.get_url_params (cfg : Config) (ctx : Option Context)
    (st : Option Value) (now : PyDateTime) : Dict :=
  let params := OpenMeteoStream.get_url_params cfg ctx
  let start_date0 : Option String := cfg.start_date
  let end_date0 : Option String := cfg.end_date
  let start_date1 : Option String :=
    match stateStr st with
    | some last_sync =>
      match fromisoformat (pyReplaceZ last_sync) with
      | some dt => some (strftimeYmd dt)
      | none => start_date0
    | none => start_date0
  let start_date : String :=
    if optFalsy start_date1 then strftimeYmd (addDays now (-30)) else start_date1.getD ""
  let end_date : String :=
    if optFalsy end_date0 then strftimeYmd (addDays now (-1)) else end_date0.getD ""
  let params := dset params "start_date" (Value.str start_date)
  let params := dset params "end_date" (Value.str end_date)
  dset params "hourly" (Value.str (String.intercalate "," (hourlyVarsOf cfg)))

/-- An upstream time-array entry: an ISO string (`timeformat=iso8601`) or a
Unix epoch integer (`timeformat=unixtime`). -/
inductive TimeVal where
  | s : String → TimeVal
  | n : Int → TimeVal
deriving DecidableEq, Repr

/-- The raw JSON value of a time-array entry. -/
def TimeVal.toValue : TimeVal → Value
  | .s v => Value.str v
  | .n v => Value.int v

/-- The nested per-category object of a windowed response (the value of
`data["hourly"]` / `data["daily"]` / `data["minutely_15"]`): a time array and
one value array per variable name. -/
structure SeriesBlock where
  time : Option (List TimeVal)
  values : List (String × List Value)
deriving DecidableEq, Repr

/-- `block.get(var, [])`. -/
def valuesFor (b : SeriesBlock) (var : String) : List Value :=
  (b.values.lookup var).getD []

/-- A windowed-stream response body; `block` is the sub-object the stream
reads (`data.get("hourly", {})`, `data.get("daily", {})`, or
`data.get("minutely_15", {})`). -/
structure WeatherResp where
  latitude : Option Rat
  longitude : Option Rat
  block : Option SeriesBlock
deriving DecidableEq, Repr

/-- `float(data["latitude"]) if data.get("latitude") is not None else None`. -/
def coordValue : Option Rat → Value
  | some x => Value.num x
  | none => Value.null

/-- The time array the flattener iterates (`data.get(cat, {}).get("time", [])`). -/
def timesOf (resp : WeatherResp) : List TimeVal :=
  ((resp.block.getD ⟨none, []⟩).time).getD []

/-- `values[i] if i < len(values) else None`. -/
def valueAt (values : List Value) (i : Nat) : Value :=
  values.getD i Value.null

/-- The `enumerate(times)` loop: one row per time entry, carrying its index. -/
def flattenRows (f : Nat → TimeVal → Dict) : Nat → List TimeVal → List Dict
  | _, [] => []
  | i, tv :: rest => f i tv :: flattenRows f (i + 1) rest

theorem flattenRows_length (f : Nat → TimeVal → Dict) (n : Nat) (ts : List TimeVal) :
    (flattenRows f n ts).length = ts.length := by
  induction ts generalizing n with
  | nil => rfl
  | cons tv rest ih => simp [flattenRows, ih]

theorem flattenRows_getElem? (f : Nat → TimeVal → Dict) (n : Nat)
    (ts : List TimeVal) (j : Nat) :
    (flattenRows f n ts)[j]? = (ts[j]?).map (f (n + j)) := by
  induction ts generalizing n j with
  | nil => simp [flattenRows]
  | cons tv rest ih =>
    cases j with
    | zero => simp [flattenRows]
    | succ j' =>
      simp only [flattenRows, List.getElem?_cons_succ, ih (n + 1) j']
      have : n + 1 + j' = n + (j' + 1) := by omega
      rw [this]

theorem mem_flattenRows (f : Nat → TimeVal → Dict) (n : Nat)
    (ts : List TimeVal) (r : Dict) (hr : r ∈ flattenRows f n ts) :
    ∃ j tv, ts[j]? = some tv ∧ r = f (n + j) tv := by
  induction ts generalizing n with
  | nil => simp [flattenRows] at hr
  | cons tv rest ih =>
    simp only [flattenRows, List.mem_cons] at hr
    rcases hr with h | h
    · exact ⟨0, tv, by simp, by simpa using h⟩
    · obtain ⟨j, tv', hj, he⟩ := ih (n + 1) h
      exact ⟨j + 1, tv', by simpa using hj, by rw [he]; congr 1; omega⟩

/-- The fixed (non-variable) part of one hourly record: keys, coordinates,
`time`, and the time-representation normalization of
`WeatherHourlyStream.parse_response` — an ISO string gets a derived
`time_unix` (None on parse failure), a Unix integer keeps `time_unix` and gets
a derived ISO `time`. -/
def hourlyRecordBase (location_name : String) (localOffsetSec : Int)
    (resp : WeatherResp) (tv : TimeVal) : Dict :=
  let record := dset (dset (dset (dset []
      "location_name" (Value.str location_name))
      "latitude" (coordValue resp.latitude))
      "longitude" (coordValue resp.longitude))
      "time" tv.toValue
  match tv with
  | .s sv =>
    match fromisoformat sv with
    | some dt => dset record "time_unix" (Value.int (pyTimestamp localOffsetSec dt))
    | none => dset record "time_unix" Value.null
  | .n t =>
    dset (dset record "time_unix" (Value.int t))
      "time" (Value.str (pyFromtimestampUTCIso t))

/-- `WeatherHourlyStream.parse_response` (streams.py). -/
def WeatherHourlyStream.parse_response (cfg : Config) (location_name : String)
    (localOffsetSec : Int) (resp : WeatherResp) : List Dict :=
  let hourly := resp.block.getD ⟨none, []⟩
  let times := hourly.time.getD []
  flattenRows (fun i tv =>
    (hourlyVarsOf cfg).foldl
      (fun d var => dset d var (valueAt (valuesFor hourly var) i))
      (hourlyRecordBase location_name localOffsetSec resp tv)) 0 times

/-- `WeatherDailyStream.parse_response` (streams.py): no time normalization,
the raw entry lands in `date`. -/
def WeatherDailyStream.parse_response (cfg : Config) (location_name : String)
    (resp : WeatherResp) : List Dict :=
  let daily := resp.block.getD ⟨none, []⟩
  let times := daily.time.getD []
  flattenRows (fun i tv =>
    (dailyVarsOf cfg).foldl
      (fun d var => dset d var (valueAt (valuesFor daily var) i))
      (dset (dset (dset (dset []
        "location_name" (Value.str location_name))
        "latitude" (coordValue resp.latitude))
        "longitude" (coordValue resp.longitude))
        "date" tv.toValue)) 0 times

/-- `WeatherMinutely15Stream.parse_response` (streams.py). -/
def WeatherMinutely15Stream.parse_response (cfg : Config) (location_name : String)
    (resp : WeatherResp) : List Dict :=
  let minutely := resp.block.getD ⟨none, []⟩
  let times := minutely.time.getD []
  flattenRows (fun i tv =>
    (minutely15VarsOf cfg).foldl
      (fun d var => dset d var (valueAt (valuesFor minutely var) i))
      (dset (dset (dset (dset []
        "location_name" (Value.str location_name))
        "latitude" (coordValue resp.latitude))
        "longitude" (coordValue resp.longitude))
        "time" tv.toValue)) 0 times

/-- The `date` derivation of `WeatherHistoricalStream.parse_response`:
`time_val.split("T")[0]` when the entry is a string containing `"T"`,
else None. -/
def historicalDateOf (tv : TimeVal) : Value :=
  match tv with
  | .s sv =>
    if sv.data.contains 'T' then Value.str (String.mk (sv.data.takeWhile (fun c => c ≠ 'T')))
    else Value.null
  | .n _ => Value.null

/-- `WeatherHistoricalStream.parse_response` (streams.py). -/
def WeatherHistoricalStream.parse_response (cfg : Config) (location_name : String)
    (resp : WeatherResp) : List Dict :=
  let hourly := resp.block.getD ⟨none, []⟩
  let times := hourly.time.getD []
  flattenRows (fun i tv =>
    (hourlyVarsOf cfg).foldl
      (fun d var => dset d var (valueAt (valuesFor hourly var) i))
      (dset (dset (dset (dset (dset []
        "location_name" (Value.str location_name))
        "latitude" (coordValue resp.latitude))
        "longitude" (coordValue resp.longitude))
        "time" tv.toValue)
        "date" (historicalDateOf tv))) 0 times

/-- A current-conditions response body; `current` is `data.get("current", {})`
(`[]` models both an absent key and an empty object, which Python treats the
same through its falsiness check). -/
structure CurrentResp where
  latitude : Option Rat
  longitude : Option Rat
  current : List (String × Value)
deriving DecidableEq, Repr

/-- `current.get(k)`, where an absent key yields None. -/
def currentGet (current : List (String × Value)) (k : String) : Value :=
  (dlookup current k).getD Value.null

/-- `WeatherCurrentStream.parse_response` (streams.py): zero records when the
`current` object is absent or empty, exactly one record otherwise. -/
def WeatherCurrentStream.parse_response (cfg : Config) (location_name : String)
    (resp : CurrentResp) : List Dict :=
  match resp.current with
  | [] => []
  | _ :: _ =>
    let current := resp.current
    let record := dset (dset (dset (dset (dset []
        "location_name" (Value.str location_name))
        "latitude" (coordValue resp.latitude))
        "longitude" (coordValue resp.longitude))
        "time" (currentGet current "time"))
        "interval" (currentGet current "interval")
    [(currentVarsOf cfg).foldl (fun d var => dset d var (currentGet current var)) record]

/-- A forecast-metadata response body (top-level fields read by
`WeatherForecastStream.parse_response`). -/
structure ForecastResp where
  latitude : Option Rat
  longitude : Option Rat
  elevation : Option Rat
  timezone : Option Value
  timezone_abbreviation : Option Value
  utc_offset_seconds : Option Value
  generationtime_ms : Option Value
deriving DecidableEq, Repr

/-- `WeatherForecastStream.parse_response` (streams.py): exactly one metadata
record, stamped with the processing wall-clock time `now` as `generated_at`
and a snapshot of the request configuration. -/
def WeatherForecastStream.parse_response (cfg : Config) (location_name : String)
    (now : PyDateTime) (resp : ForecastResp) : List Dict :=
  [dset (dset (dset (dset (dset (dset (dset (dset (dset (dset (dset (dset (dset []
    "location_name" (Value.str location_name))
    "latitude" (coordValue resp.latitude))
    "longitude" (coordValue resp.longitude))
    "elevation" (coordValue resp.elevation))
    "timezone" (resp.timezone.getD Value.null))
    "timezone_abbreviation" (resp.timezone_abbreviation.getD Value.null))
    "utc_offset_seconds" (resp.utc_offset_seconds.getD Value.null))
    "generationtime_ms" (resp.generationtime_ms.getD Value.null))
    "generated_at" (Value.str (pyIsoformatUTC now)))
    "forecast_days" (Value.int (cfg.forecast_days.getD 7)))
    "past_days" (Value.int (cfg.past_days.getD 0)))
    "hourly_variables" (Value.strlist (cfg.hourly_variables.getD [])))
    "daily_variables" (Value.strlist (cfg.daily_variables.getD []))]

/-- Field-name list of the `WeatherForecastStream` schema declaration. -/
def WeatherForecastStream.schemaFields : List String :=
  ["location_name", "latitude", "longitude", "elevation", "timezone",
   "timezone_abbreviation", "utc_offset_seconds", "generationtime_ms",
   "generated_at", "forecast_days", "past_days", "hourly_variables",
   "daily_variables"]

/-- Field-name list of the dynamic `WeatherHourlyStream` schema. -/
def WeatherHourlyStream.schemaFields (cfg : Config) : List String :=
  ["location_name", "latitude", "longitude", "time", "time_unix"] ++ hourlyVarsOf cfg

/-- Field-name list of the dynamic `WeatherDailyStream` schema. -/
def WeatherDailyStream.schemaFields (cfg : Config) : List String :=
  ["location_name", "latitude", "longitude", "date"] ++ dailyVarsOf cfg

/-- Field-name list of the dynamic `WeatherCurrentStream` schema. -/
def WeatherCurrentStream.schemaFields (cfg : Config) : List String :=
  ["location_name", "latitude", "longitude", "time", "interval"] ++ currentVarsOf cfg

/-- Field-name list of the dynamic `WeatherMinutely15Stream` schema. -/
def WeatherMinutely15Stream.schemaFields (cfg : Config) : List String :=
  ["location_name", "latitude", "longitude", "time"] ++ minutely15VarsOf cfg

/-- Field-name list of the dynamic `WeatherHistoricalStream` schema. -/
def WeatherHistoricalStream.schemaFields (cfg : Config) : List String :=
  ["location_name", "latitude", "longitude", "time", "date"] ++ hourlyVarsOf cfg

theorem hasKey_locationParams_sub (cfg : Config) (ctx : Option Context) (k : String)
    (h : hasKey (locationParams cfg ctx) k) :
    k ∈ ["latitude", "longitude", "elevation", "timezone"] := by
  unfold locationParams at h
  rcases ctx with _ | c
  · rcases hl : cfg.locations with _ | ⟨loc, rest⟩ <;> simp only [hl] at h
    · exact absurd h (hasKey_nil k)
    · rcases he : loc.elevation with _ | e <;>
        simp only [he, hasKey_dset] at h <;>
        simp_all [hasKey_nil, hasKey_dset] <;> tauto
  · rcases he : c.elevation with _ | e <;>
      simp only [he, hasKey_dset] at h <;>
      simp_all [hasKey_nil, hasKey_dset] <;> tauto

theorem hasKey_unitParams_iff (cfg : Config) (d : Dict) (k : String) :
    hasKey (unitParams cfg d) k ↔ hasKey d k
      ∨ (k = "temperature_unit" ∧ cfg.temperature_unit.getD "celsius" = "fahrenheit")
      ∨ (k = "wind_speed_unit" ∧ cfg.wind_speed_unit.getD "kmh" ≠ "kmh")
      ∨ (k = "precipitation_unit" ∧ cfg.precipitation_unit.getD "mm" ≠ "mm")
      ∨ (k = "timeformat" ∧ cfg.timeformat.getD "iso8601" ≠ "iso8601") := by
  unfold unitParams
  dsimp only
  split_ifs with h1 h2 h3 h4 <;> simp_all [hasKey_dset] <;> tauto

theorem hasKey_modelParams_ne (cfg : Config) (d : Dict) (k : String)
    (h : k ≠ "models") : hasKey (modelParams cfg d) k ↔ hasKey d k := by
  unfold modelParams
  split_ifs with h1
  · exact Iff.rfl
  · rw [hasKey_dset]
    simp [h]

theorem hasKey_cellSelectionParams_iff (cfg : Config) (d : Dict) (k : String) :
    hasKey (cellSelectionParams cfg d) k ↔ hasKey d k
      ∨ (k = "cell_selection" ∧ cfg.cell_selection.getD "land" ≠ "land") := by
  unfold cellSelectionParams
  dsimp only
  split_ifs with h1 <;> simp_all [hasKey_dset]

theorem hasKey_apiKeyParams_ne (cfg : Config) (d : Dict) (k : String)
    (h : k ≠ "apikey") : hasKey (apiKeyParams cfg d) k ↔ hasKey d k := by
  unfold apiKeyParams
  rcases cfg.api_key with _ | key <;> dsimp only
  · exact Iff.rfl
  · split_ifs with h1
    · exact Iff.rfl
    · rw [hasKey_dset]; simp [h]

theorem hasKey_panelParams_ne (cfg : Config) (d : Dict) (k : String)
    (h1 : k ≠ "tilt") (h2 : k ≠ "azimuth") :
    hasKey (panelParams cfg d) k ↔ hasKey d k := by
  unfold panelParams
  dsimp only
  rcases cfg.tilt with _ | t <;> rcases cfg.azimuth with _ | a <;>
    simp [hasKey_dset, h1, h2]

/-- Every key the shared base builder can emit. -/
theorem hasKey_base_sub (cfg : Config) (ctx : Option Context) (k : String)
    (h : hasKey (OpenMeteoStream.get_url_params cfg ctx) k) :
    k ∈ ["latitude", "longitude", "elevation", "timezone", "temperature_unit",
         "wind_speed_unit", "precipitation_unit", "timeformat", "models",
         "cell_selection", "apikey", "tilt", "azimuth"] := by
  unfold OpenMeteoStream.get_url_params at h
  by_cases htilt : k = "tilt"
  · simp [htilt]
  by_cases haz : k = "azimuth"
  · simp [haz]
  rw [hasKey_panelParams_ne _ _ _ htilt haz] at h
  by_cases hapi : k = "apikey"
  · simp [hapi]
  rw [hasKey_apiKeyParams_ne _ _ _ hapi] at h
  rw [hasKey_cellSelectionParams_iff] at h
  rcases h with h | ⟨hk, _⟩
  · by_cases hmod : k = "models"
    · simp [hmod]
    rw [hasKey_modelParams_ne _ _ _ hmod] at h
    rw [hasKey_unitParams_iff] at h
    rcases h with h | ⟨hk, _⟩ | ⟨hk, _⟩ | ⟨hk, _⟩ | ⟨hk, _⟩
    · have := hasKey_locationParams_sub cfg ctx k h
      simp only [List.mem_cons, List.mem_singleton] at this ⊢
      tauto
    all_goals simp [hk]
  · simp [hk]

/-- The base builder never emits a time-window or variable-list key. -/
theorem not_hasKey_base_window (cfg : Config) (ctx : Option Context) (k : String)
    (hk : k ∈ ["forecast_hours", "forecast_days", "past_hours", "past_days",
               "start_hour", "end_hour", "start_date", "end_date",
               "hourly", "daily", "current", "minutely_15"]) :
    ¬ hasKey (OpenMeteoStream.get_url_params cfg ctx) k := by
  intro h
  have hsub := hasKey_base_sub cfg ctx k h
  simp only [List.mem_cons, List.mem_singleton, List.not_mem_nil, or_false] at hk hsub
  rcases hk with rfl | rfl | rfl | rfl | rfl | rfl | rfl | rfl | rfl | rfl | rfl | rfl <;>
    simp at hsub

/-- Presence of the emitted-if-nondefault unit keys in the base parameter set. -/
theorem hasKey_base_units (cfg : Config) (ctx : Option Context) :
    (hasKey (OpenMeteoStream.get_url_params cfg ctx) "temperature_unit" ↔
      cfg.temperature_unit.getD "celsius" = "fahrenheit") ∧
    (hasKey (OpenMeteoStream.get_url_params cfg ctx) "wind_speed_unit" ↔
      cfg.wind_speed_unit.getD "kmh" ≠ "kmh") ∧
    (hasKey (OpenMeteoStream.get_url_params cfg ctx) "precipitation_unit" ↔
      cfg.precipitation_unit.getD "mm" ≠ "mm") ∧
    (hasKey (OpenMeteoStream.get_url_params cfg ctx) "timeformat" ↔
      cfg.timeformat.getD "iso8601" ≠ "iso8601") ∧
    (hasKey (OpenMeteoStream.get_url_params cfg ctx) "cell_selection" ↔
      cfg.cell_selection.getD "land" ≠ "land") := by
  unfold OpenMeteoStream.get_url_params
  refine ⟨?_, ?_, ?_, ?_, ?_⟩ <;>
    rw [hasKey_panelParams_ne _ _ _ (by decide) (by decide),
        hasKey_apiKeyParams_ne _ _ _ (by decide),
        hasKey_cellSelectionParams_iff,
        hasKey_modelParams_ne _ _ _ (by decide),
        hasKey_unitParams_iff] <;>
    constructor
  · rintro ((h | ⟨hk, hc⟩ | ⟨hk, _⟩ | ⟨hk, _⟩ | ⟨hk, _⟩) | ⟨hk, _⟩)
    · exact absurd (hasKey_locationParams_sub cfg ctx _ h) (by decide)
    · exact hc
    all_goals simp at hk
  · intro hc; exact Or.inl (Or.inr (Or.inl ⟨rfl, hc⟩))
  · rintro ((h | ⟨hk, _⟩ | ⟨hk, hc⟩ | ⟨hk, _⟩ | ⟨hk, _⟩) | ⟨hk, _⟩)
    · exact absurd (hasKey_locationParams_sub cfg ctx _ h) (by decide)
    · simp at hk
    · exact hc
    all_goals simp at hk
  · intro hc; exact Or.inl (Or.inr (Or.inr (Or.inl ⟨rfl, hc⟩)))
  · rintro ((h | ⟨hk, _⟩ | ⟨hk, _⟩ | ⟨hk, hc⟩ | ⟨hk, _⟩) | ⟨hk, _⟩)
    · exact absurd (hasKey_locationParams_sub cfg ctx _ h) (by decide)
    · simp at hk
    · simp at hk
    · exact hc
    · simp at hk
    · simp at hk
  · intro hc; exact Or.inl (Or.inr (Or.inr (Or.inr (Or.inl ⟨rfl, hc⟩))))
  · rintro ((h | ⟨hk, _⟩ | ⟨hk, _⟩ | ⟨hk, _⟩ | ⟨hk, hc⟩) | ⟨hk, _⟩)
    · exact absurd (hasKey_locationParams_sub cfg ctx _ h) (by decide)
    · simp at hk
    · simp at hk
    · simp at hk
    · exact hc
    · simp at hk
  · intro hc; exact Or.inl (Or.inr (Or.inr (Or.inr (Or.inr ⟨rfl, hc⟩))))
  · rintro ((h | ⟨hk, _⟩ | ⟨hk, _⟩ | ⟨hk, _⟩ | ⟨hk, _⟩) | ⟨_, hc⟩)
    · exact absurd (hasKey_locationParams_sub cfg ctx _ h) (by decide)
    · simp at hk
    · simp at hk
    · simp at hk
    · simp at hk
    · exact hc
  · intro hc; exact Or.inr ⟨rfl, hc⟩

theorem hasKey_relForecastWindow (cfg : Config) (d : Dict) (k : String) :
    hasKey (relForecastWindow cfg d) k ↔ hasKey d k
      ∨ (k = "forecast_hours" ∧ cfg.forecast_hours.isSome = true)
      ∨ (k = "forecast_days" ∧ cfg.forecast_hours = none) := by
  unfold relForecastWindow
  rcases h : cfg.forecast_hours with _ | fh <;> simp [hasKey_dset, h]

theorem hasKey_relPastWindow (cfg : Config) (d : Dict) (k : String) :
    hasKey (relPastWindow cfg d) k ↔ hasKey d k
      ∨ (k = "past_hours" ∧ cfg.past_hours.isSome = true)
      ∨ (k = "past_days" ∧ cfg.past_hours = none) := by
  unfold relPastWindow
  rcases h : cfg.past_hours with _ | ph <;> simp [hasKey_dset, h]

theorem hasKey_hourlyParams_frame (cfg : Config) (ctx : Option Context)
    (st : Option Value) (now : PyDateTime) (k : String)
    (h1 : k ≠ "forecast_hours") (h2 : k ≠ "forecast_days")
    (h3 : k ≠ "past_hours") (h4 : k ≠ "past_days") (h5 : k ≠ "hourly")
    (h6 : k ≠ "start_hour") (h7 : k ≠ "end_hour") :
    hasKey (WeatherHourlyStream.get_url_params cfg ctx st now) k ↔
      hasKey (OpenMeteoStream.get_url_params cfg ctx) k := by
  unfold WeatherHourlyStream.get_url_params
  cases hs : stateStr st with
  | none =>
    dsimp only
    rw [hasKey_dset, hasKey_relPastWindow, hasKey_relForecastWindow]
    simp [h1, h2, h3, h4, h5]
  | some ls =>
    dsimp only
    cases hp : fromisoformat (pyReplaceZ ls) with
    | none =>
      rw [hasKey_dset, hasKey_relPastWindow, hasKey_relForecastWindow]
      simp [h1, h2, h3, h4, h5]
    | some dt =>
      dsimp only
      rw [hasKey_dpop, hasKey_dpop, hasKey_dpop, hasKey_dpop,
          hasKey_dset, hasKey_dset, hasKey_dset,
          hasKey_relPastWindow, hasKey_relForecastWindow]
      simp [h1, h2, h3, h4, h5, h6, h7]

theorem hasKey_dailyParams_frame (cfg : Config) (ctx : Option Context)
    (st : Option Value) (now : PyDateTime) (k : String)
    (h1 : k ≠ "forecast_hours") (h2 : k ≠ "forecast_days")
    (h3 : k ≠ "past_hours") (h4 : k ≠ "past_days") (h5 : k ≠ "daily")
    (h6 : k ≠ "start_date") (h7 : k ≠ "end_date") :
    hasKey (WeatherDailyStream.get_url_params cfg ctx st now) k ↔
      hasKey (OpenMeteoStream.get_url_params cfg ctx) k := by
  unfold WeatherDailyStream.get_url_params
  cases hs : stateStr st with
  | none =>
    dsimp only
    rw [hasKey_dset, hasKey_relPastWindow, hasKey_relForecastWindow]
    simp [h1, h2, h3, h4, h5]
  | some ls =>
    dsimp only
    cases hp : fromisoformat (pyReplaceZ ls) with
    | none =>
      rw [hasKey_dset, hasKey_relPastWindow, hasKey_relForecastWindow]
      simp [h1, h2, h3, h4, h5]
    | some dt =>
      dsimp only
      rw [hasKey_dpop, hasKey_dpop, hasKey_dpop, hasKey_dpop,
          hasKey_dset, hasKey_dset, hasKey_dset,
          hasKey_relPastWindow, hasKey_relForecastWindow]
      simp [h1, h2, h3, h4, h5, h6, h7]

theorem hasKey_forecastParams_frame (cfg : Config) (ctx : Option Context) (k : String)
    (h1 : k ≠ "forecast_hours") (h2 : k ≠ "forecast_days")
    (h3 : k ≠ "past_hours") (h4 : k ≠ "past_days") (h5 : k ≠ "hourly") :
    hasKey (WeatherForecastStream.get_url_params cfg ctx) k ↔
      hasKey (OpenMeteoStream.get_url_params cfg ctx) k := by
  unfold WeatherForecastStream.get_url_params
  dsimp only
  split_ifs with hv
  · rw [hasKey_relPastWindow, hasKey_relForecastWindow]
    simp [h1, h2, h3, h4]
  · rw [hasKey_dset, hasKey_relPastWindow, hasKey_relForecastWindow]
    simp [h1, h2, h3, h4, h5]

theorem hasKey_currentParams_frame (cfg : Config) (ctx : Option Context) (k : String)
    (h1 : k ≠ "current") :
    hasKey (WeatherCurrentStream.get_url_params cfg ctx) k ↔
      hasKey (OpenMeteoStream.get_url_params cfg ctx) k := by
  unfold WeatherCurrentStream.get_url_params
  rw [hasKey_dset]
  simp [h1]

theorem hasKey_minutely15Params_frame (cfg : Config) (ctx : Option Context) (k : String)
    (h1 : k ≠ "forecast_hours") (h2 : k ≠ "forecast_days") (h3 : k ≠ "minutely_15") :
    hasKey (WeatherMinutely15Stream.get_url_params cfg ctx) k ↔
      hasKey (OpenMeteoStream.get_url_params cfg ctx) k := by
  unfold WeatherMinutely15Stream.get_url_params
  dsimp only
  split_ifs with hv
  · rw [hasKey_relForecastWindow]
    simp [h1, h2]
  · rw [hasKey_dset, hasKey_relForecastWindow]
    simp [h1, h2, h3]

theorem hasKey_historicalParams_frame (cfg : Config) (ctx : Option Context)
    (st : Option Value) (now : PyDateTime) (k : String)
    (h1 : k ≠ "start_date") (h2 : k ≠ "end_date") (h3 : k ≠ "hourly") :
    hasKey (WeatherHistoricalStream.get_url_params cfg ctx st now) k ↔
      hasKey (OpenMeteoStream.get_url_params cfg ctx) k := by
  unfold WeatherHistoricalStream.get_url_params
  dsimp only
  rw [hasKey_dset, hasKey_dset, hasKey_dset]
  simp [h1, h2, h3]

/-- The four relative (count-based) window parameter names. -/
def windowRelativeKeys : List String :=
  ["forecast_hours", "past_hours", "forecast_days", "past_days"]

/-- The four absolute window parameter names. -/
def windowAbsoluteKeys : List String :=
  ["start_hour", "end_hour", "start_date", "end_date"]

/-- The mutual-exclusivity shape required of a built parameter set: no
hour-count together with a day-count in the same direction, and no relative
key together with an absolute key. -/
def windowMutex (p : Dict) : Prop :=
  ¬(hasKey p "forecast_hours" ∧ hasKey p "forecast_days") ∧
  ¬(hasKey p "past_hours" ∧ hasKey p "past_days") ∧
  ∀ kr ∈ windowRelativeKeys, ∀ ka ∈ windowAbsoluteKeys, ¬(hasKey p kr ∧ hasKey p ka)

theorem windowMutex_relative (cfg : Config) (ctx : Option Context)
    (key : String) (v : Value)
    (hkey1 : key ∉ windowRelativeKeys) (hkey2 : key ∉ windowAbsoluteKeys) :
    windowMutex (dset (relPastWindow cfg (relForecastWindow cfg
      (OpenMeteoStream.get_url_params cfg ctx))) key v) := by
  have hbase : ∀ k, k ∈ windowRelativeKeys ∨ k ∈ windowAbsoluteKeys →
      ¬ hasKey (OpenMeteoStream.get_url_params cfg ctx) k := by
    intro k hk
    apply not_hasKey_base_window cfg ctx k
    revert hk
    simp [windowRelativeKeys, windowAbsoluteKeys]
    tauto
  simp only [windowRelativeKeys, windowAbsoluteKeys, List.mem_cons,
    List.mem_singleton, not_or, List.not_mem_nil, or_false] at hkey1 hkey2
  obtain ⟨hb1, hb2, hb3, hb4⟩ := hkey1
  obtain ⟨hc1, hc2, hc3, hc4⟩ := hkey2
  have hb1' : "forecast_hours" ≠ key := fun he => hb1 he.symm
  have hb2' : "past_hours" ≠ key := fun he => hb2 he.symm
  have hb3' : "forecast_days" ≠ key := fun he => hb3 he.symm
  have hb4' : "past_days" ≠ key := fun he => hb4 he.symm
  have hc1' : "start_hour" ≠ key := fun he => hc1 he.symm
  have hc2' : "end_hour" ≠ key := fun he => hc2 he.symm
  have hc3' : "start_date" ≠ key := fun he => hc3 he.symm
  have hc4' : "end_date" ≠ key := fun he => hc4 he.symm
  have habs : ∀ ka ∈ windowAbsoluteKeys,
      ¬ hasKey (dset (relPastWindow cfg (relForecastWindow cfg
        (OpenMeteoStream.get_url_params cfg ctx))) key v) ka := by
    intro ka hka
    rw [hasKey_dset, hasKey_relPastWindow, hasKey_relForecastWindow]
    fin_cases hka
    · have hb := hbase "start_hour" (by decide); simp_all
    · have hb := hbase "end_hour" (by decide); simp_all
    · have hb := hbase "start_date" (by decide); simp_all
    · have hb := hbase "end_date" (by decide); simp_all
  refine ⟨?_, ?_, ?_⟩
  · rintro ⟨ha, hb⟩
    rw [hasKey_dset, hasKey_relPastWindow, hasKey_relForecastWindow] at ha hb
    have h1 := hbase "forecast_hours" (by decide)
    have h2 := hbase "forecast_days" (by decide)
    simp_all
  · rintro ⟨ha, hb⟩
    rw [hasKey_dset, hasKey_relPastWindow, hasKey_relForecastWindow] at ha hb
    have h1 := hbase "past_hours" (by decide)
    have h2 := hbase "past_days" (by decide)
    simp_all
  · intro kr _ ka hka ⟨_, hc⟩
    exact habs ka hka hc

theorem windowMutex_popped (q : Dict) :
    windowMutex (dpop (dpop (dpop (dpop q "forecast_hours") "past_hours")
      "forecast_days") "past_days") := by
  have hrel : ∀ k ∈ windowRelativeKeys,
      ¬ hasKey (dpop (dpop (dpop (dpop q "forecast_hours") "past_hours")
        "forecast_days") "past_days") k := by
    intro k hk
    fin_cases hk <;> simp [hasKey_dpop]
  refine ⟨?_, ?_, ?_⟩
  · rintro ⟨ha, _⟩; exact hrel "forecast_hours" (by decide) ha
  · rintro ⟨ha, _⟩; exact hrel "past_hours" (by decide) ha
  · intro kr hkr ka _ ⟨ha, _⟩; exact hrel kr hkr ha

theorem windowMutex_hourly (cfg : Config) (ctx : Option Context)
    (st : Option Value) (now : PyDateTime) :
    windowMutex (WeatherHourlyStream.get_url_params cfg ctx st now) := by
  unfold WeatherHourlyStream.get_url_params
  cases hs : stateStr st with
  | none =>
    dsimp only
    exact windowMutex_relative cfg ctx "hourly" _ (by decide) (by decide)
  | some ls =>
    dsimp only
    cases hp : fromisoformat (pyReplaceZ ls) with
    | none => exact windowMutex_relative cfg ctx "hourly" _ (by decide) (by decide)
    | some dt =>
      dsimp only
      exact windowMutex_popped _

theorem windowMutex_daily (cfg : Config) (ctx : Option Context)
    (st : Option Value) (now : PyDateTime) :
    windowMutex (WeatherDailyStream.get_url_params cfg ctx st now) := by
  unfold WeatherDailyStream.get_url_params
  cases hs : stateStr st with
  | none =>
    dsimp only
    exact windowMutex_relative cfg ctx "daily" _ (by decide) (by decide)
  | some ls =>
    dsimp only
    cases hp : fromisoformat (pyReplaceZ ls) with
    | none => exact windowMutex_relative cfg ctx "daily" _ (by decide) (by decide)
    | some dt =>
      dsimp only
      exact windowMutex_popped _

theorem windowMutex_minutely15 (cfg : Config) (ctx : Option Context) :
    windowMutex (WeatherMinutely15Stream.get_url_params cfg ctx) := by
  have hbase : ∀ k, k ∈ windowRelativeKeys ∨ k ∈ windowAbsoluteKeys →
      ¬ hasKey (OpenMeteoStream.get_url_params cfg ctx) k := by
    intro k hk
    apply not_hasKey_base_window cfg ctx k
    revert hk
    simp [windowRelativeKeys, windowAbsoluteKeys]
    tauto
  unfold WeatherMinutely15Stream.get_url_params
  dsimp only
  split_ifs with hv
  · refine ⟨?_, ?_, ?_⟩
    · rintro ⟨ha, hb⟩
      rw [hasKey_relForecastWindow] at ha hb
      have h1 := hbase "forecast_hours" (by decide)
      have h2 := hbase "forecast_days" (by decide)
      simp_all
    · rintro ⟨ha, hb⟩
      rw [hasKey_relForecastWindow] at ha hb
      have h1 := hbase "past_hours" (by decide)
      have h2 := hbase "past_days" (by decide)
      simp_all
    · intro kr hkr ka hka ⟨_, hc⟩
      rw [hasKey_relForecastWindow] at hc
      fin_cases hka
      · have hb := hbase "start_hour" (by decide); simp_all
      · have hb := hbase "end_hour" (by decide); simp_all
      · have hb := hbase "start_date" (by decide); simp_all
      · have hb := hbase "end_date" (by decide); simp_all
  · refine ⟨?_, ?_, ?_⟩
    · rintro ⟨ha, hb⟩
      rw [hasKey_dset, hasKey_relForecastWindow] at ha hb
      have h1 := hbase "forecast_hours" (by decide)
      have h2 := hbase "forecast_days" (by decide)
      simp_all
    · rintro ⟨ha, hb⟩
      rw [hasKey_dset, hasKey_relForecastWindow] at ha hb
      have h1 := hbase "past_hours" (by decide)
      have h2 := hbase "past_days" (by decide)
      simp_all
    · intro kr hkr ka hka ⟨_, hc⟩
      rw [hasKey_dset, hasKey_relForecastWindow] at hc
      fin_cases hka
      · have hb := hbase "start_hour" (by decide); simp_all
      · have hb := hbase "end_hour" (by decide); simp_all
      · have hb := hbase "start_date" (by decide); simp_all
      · have hb := hbase "end_date" (by decide); simp_all

theorem windowMutex_historical (cfg : Config) (ctx : Option Context)
    (st : Option Value) (now : PyDateTime) :
    windowMutex (WeatherHistoricalStream.get_url_params cfg ctx st now) := by
  have hrel : ∀ k ∈ windowRelativeKeys,
      ¬ hasKey (WeatherHistoricalStream.get_url_params cfg ctx st now) k := by
    intro k hk
    have hb : ¬ hasKey (OpenMeteoStream.get_url_params cfg ctx) k := by
      apply not_hasKey_base_window cfg ctx k
      revert hk
      simp [windowRelativeKeys]
      tauto
    intro hc
    unfold WeatherHistoricalStream.get_url_params at hc
    dsimp only at hc
    rw [hasKey_dset, hasKey_dset, hasKey_dset] at hc
    fin_cases hk <;> simp_all
  refine ⟨?_, ?_, ?_⟩
  · rintro ⟨ha, _⟩; exact hrel "forecast_hours" (by decide) ha
  · rintro ⟨ha, _⟩; exact hrel "past_hours" (by decide) ha
  · intro kr hkr ka _ ⟨ha, _⟩; exact hrel kr hkr ha

/-- C2: for every windowed stream and every configuration and replication
state, the built parameter set never contains both an hour-count and a
day-count key for the same direction, and never mixes relative window keys
with absolute window keys. -/
theorem C2_window_mutual_exclusivity (cfg : Config) (ctx : Option Context)
    (st : Option Value) (now : PyDateTime) :
    windowMutex (WeatherHourlyStream.get_url_params cfg ctx st now) ∧
    windowMutex (WeatherDailyStream.get_url_params cfg ctx st now) ∧
    windowMutex (WeatherMinutely15Stream.get_url_params cfg ctx) ∧
    windowMutex (WeatherHistoricalStream.get_url_params cfg ctx st now) :=
  ⟨windowMutex_hourly cfg ctx st now, windowMutex_daily cfg ctx st now,
   windowMutex_minutely15 cfg ctx, windowMutex_historical cfg ctx st now⟩

/-- The five parameters that are suppressed at their default values. -/
def unitDefaultKeys : List String :=
  ["temperature_unit", "wind_speed_unit", "precipitation_unit", "timeformat",
   "cell_selection"]

theorem noKey_all_streams (cfg : Config) (ctx : Option Context)
    (st : Option Value) (now : PyDateTime) (k : String)
    (hbk : ¬ hasKey (OpenMeteoStream.get_url_params cfg ctx) k)
    (hne : ∀ k2 ∈ ["forecast_hours", "forecast_days", "past_hours", "past_days",
      "hourly", "daily", "current", "minutely_15",
      "start_hour", "end_hour", "start_date", "end_date"], k ≠ k2) :
    ¬ hasKey (OpenMeteoStream.get_url_params cfg ctx) k ∧
    ¬ hasKey (WeatherForecastStream.get_url_params cfg ctx) k ∧
    ¬ hasKey (WeatherHourlyStream.get_url_params cfg ctx st now) k ∧
    ¬ hasKey (WeatherDailyStream.get_url_params cfg ctx st now) k ∧
    ¬ hasKey (WeatherCurrentStream.get_url_params cfg ctx) k ∧
    ¬ hasKey (WeatherMinutely15Stream.get_url_params cfg ctx) k ∧
    ¬ hasKey (WeatherHistoricalStream.get_url_params cfg ctx st now) k := by
  refine ⟨hbk, ?_, ?_, ?_, ?_, ?_, ?_⟩
  · intro h
    exact hbk ((hasKey_forecastParams_frame cfg ctx k (hne _ (by decide))
      (hne _ (by decide)) (hne _ (by decide)) (hne _ (by decide))
      (hne _ (by decide))).mp h)
  · intro h
    exact hbk ((hasKey_hourlyParams_frame cfg ctx st now k (hne _ (by decide))
      (hne _ (by decide)) (hne _ (by decide)) (hne _ (by decide))
      (hne _ (by decide)) (hne _ (by decide)) (hne _ (by decide))).mp h)
  · intro h
    exact hbk ((hasKey_dailyParams_frame cfg ctx st now k (hne _ (by decide))
      (hne _ (by decide)) (hne _ (by decide)) (hne _ (by decide))
      (hne _ (by decide)) (hne _ (by decide)) (hne _ (by decide))).mp h)
  · intro h
    exact hbk ((hasKey_currentParams_frame cfg ctx k (hne _ (by decide))).mp h)
  · intro h
    exact hbk ((hasKey_minutely15Params_frame cfg ctx k (hne _ (by decide))
      (hne _ (by decide)) (hne _ (by decide))).mp h)
  · intro h
    exact hbk ((hasKey_historicalParams_frame cfg ctx st now k (hne _ (by decide))
      (hne _ (by decide)) (hne _ (by decide))).mp h)

/-- C6: with all unit-family options left at their defaults (celsius, kmh, mm,
iso8601, land), no built parameter set — for the base builder or any of the
six streams — contains any of `temperature_unit`, `wind_speed_unit`,
`precipitation_unit`, `timeformat`, `cell_selection`. -/
theorem C6_default_suppression (cfg : Config) (ctx : Option Context)
    (st : Option Value) (now : PyDateTime)
    (h1 : cfg.temperature_unit.getD "celsius" = "celsius")
    (h2 : cfg.wind_speed_unit.getD "kmh" = "kmh")
    (h3 : cfg.precipitation_unit.getD "mm" = "mm")
    (h4 : cfg.timeformat.getD "iso8601" = "iso8601")
    (h5 : cfg.cell_selection.getD "land" = "land") :
    ∀ k ∈ unitDefaultKeys,
      ¬ hasKey (OpenMeteoStream.get_url_params cfg ctx) k ∧
      ¬ hasKey (WeatherForecastStream.get_url_params cfg ctx) k ∧
      ¬ hasKey (WeatherHourlyStream.get_url_params cfg ctx st now) k ∧
      ¬ hasKey (WeatherDailyStream.get_url_params cfg ctx st now) k ∧
      ¬ hasKey (WeatherCurrentStream.get_url_params cfg ctx) k ∧
      ¬ hasKey (WeatherMinutely15Stream.get_url_params cfg ctx) k ∧
      ¬ hasKey (WeatherHistoricalStream.get_url_params cfg ctx st now) k := by
  have hu := hasKey_base_units cfg ctx
  have hb : ∀ k ∈ unitDefaultKeys, ¬ hasKey (OpenMeteoStream.get_url_params cfg ctx) k := by
    intro k hk
    fin_cases hk
    · intro h
      have := hu.1.mp h
      rw [h1] at this
      exact absurd this (by decide)
    · intro h
      exact (hu.2.1.mp h) h2
    · intro h
      exact (hu.2.2.1.mp h) h3
    · intro h
      exact (hu.2.2.2.1.mp h) h4
    · intro h
      exact (hu.2.2.2.2.mp h) h5
  intro k hk
  fin_cases hk <;>
    exact noKey_all_streams cfg ctx st now _ (hb _ (by decide)) (by decide)

/-- C6 witness: a fully default configuration, no context, no state. -/
def cfgNone : Config :=
  { locations := [], timezone := none, forecast_days := none,
    forecast_hours := none, past_days := none, past_hours := none,
    start_date := none, end_date := none, hourly_variables := none,
    daily_variables := none, current_variables := none,
    minutely_15_variables := none, temperature_unit := none,
    wind_speed_unit := none, precipitation_unit := none, timeformat := none,
    models := [], cell_selection := none, api_key := none, tilt := none,
    azimuth := none }

/-- A reference wall-clock instant used by the concrete witnesses. -/
def now0 : PyDateTime := ⟨2026, 2, 21, 12, 0, 0, some 0⟩

theorem C6_default_suppression_witness :
    (cfgNone.temperature_unit.getD "celsius" = "celsius" ∧
     cfgNone.wind_speed_unit.getD "kmh" = "kmh" ∧
     cfgNone.precipitation_unit.getD "mm" = "mm" ∧
     cfgNone.timeformat.getD "iso8601" = "iso8601" ∧
     cfgNone.cell_selection.getD "land" = "land") ∧
    ¬ hasKey (WeatherHourlyStream.get_url_params cfgNone none none now0) "temperature_unit" :=
  ⟨⟨by decide, by decide, by decide, by decide, by decide⟩,
   (C6_default_suppression cfgNone none none now0 (by decide) (by decide)
     (by decide) (by decide) (by decide) "temperature_unit" (by decide)).2.2.1⟩

/-- C10: `temperature_unit` is included iff the configured value is exactly
`"fahrenheit"`, while the other unit families are included whenever the
configured value differs from their default. -/
theorem C10_temperature_unit_asymmetry (cfg : Config) (ctx : Option Context) :
    (hasKey (OpenMeteoStream.get_url_params cfg ctx) "temperature_unit" ↔
      cfg.temperature_unit.getD "celsius" = "fahrenheit") ∧
    (hasKey (OpenMeteoStream.get_url_params cfg ctx) "wind_speed_unit" ↔
      cfg.wind_speed_unit.getD "kmh" ≠ "kmh") ∧
    (hasKey (OpenMeteoStream.get_url_params cfg ctx) "precipitation_unit" ↔
      cfg.precipitation_unit.getD "mm" ≠ "mm") ∧
    (hasKey (OpenMeteoStream.get_url_params cfg ctx) "timeformat" ↔
      cfg.timeformat.getD "iso8601" ≠ "iso8601") := by
  have hu := hasKey_base_units cfg ctx
  exact ⟨hu.1, hu.2.1, hu.2.2.1, hu.2.2.2.1⟩

/-- Stated from the claim's words, for comparison with the code: "start_hour
equal to V truncated to its hour" — the checkpoint value with minutes and
seconds zeroed. -/
def isoHourTruncation (s : String) : Option String :=
  (fromisoformat s).map (fun dt =>
    pad4 dt.year ++ "-" ++ pad2 dt.month ++ "-" ++ pad2 dt.day ++ "T" ++
      pad2 dt.hour ++ ":00")

/-- A concrete per-location context used by witnesses (coordinates pass
through as strings, as in the repository's own tests). -/
def ctx0 : Context :=
  ⟨"TestCity", Value.str "45.0", Value.str "11.0", none, some "Europe/Rome"⟩

/-- C1 counterexample: for the stored checkpoint "2026-02-20T10:30" the hourly
stream emits `start_hour = "2026-02-20T10:30"`, not the claim's hour
truncation "2026-02-20T10:00" — the code formats with `%Y-%m-%dT%H:%M` and
keeps the checkpoint's minutes. -/
theorem C1_counterexample :
    dlookup (WeatherHourlyStream.get_url_params cfgNone (some ctx0)
        (some (Value.str "2026-02-20T10:30")) now0) "start_hour"
      = some (Value.str "2026-02-20T10:30") ∧
    isoHourTruncation "2026-02-20T10:30" = some "2026-02-20T10:00" ∧
    some (Value.str "2026-02-20T10:30") ≠
      (isoHourTruncation "2026-02-20T10:30").map Value.str := by
  refine ⟨by decide, by decide, by decide⟩

/-- C1 (amended): with a stored replication value V that parses as ISO8601,
the hourly stream's parameter set carries `start_hour` = V truncated to
minute precision (`%Y-%m-%dT%H:%M`) and `end_hour` = now plus the configured
`forecast_hours` span (default 48), the daily stream carries `start_date` = V's
date truncation and `end_date` = now plus the configured `forecast_days` span
(default 7), and neither parameter set contains any of `forecast_hours`,
`past_hours`, `forecast_days`, `past_days`. -/
theorem C1_checkpoint_roundtrip (cfg : Config) (ctx : Option Context)
    (st : Option Value) (now : PyDateTime) (V : String) (dt : PyDateTime)
    (hst : stateStr st = some V)
    (hparse : fromisoformat (pyReplaceZ V) = some dt) :
    dlookup (WeatherHourlyStream.get_url_params cfg ctx st now) "start_hour"
      = some (Value.str (strftimeYmdHM dt)) ∧
    dlookup (WeatherHourlyStream.get_url_params cfg ctx st now) "end_hour"
      = some (Value.str (strftimeYmdHM (addHours now (cfg.forecast_hours.getD 48)))) ∧
    (∀ k ∈ windowRelativeKeys,
      ¬ hasKey (WeatherHourlyStream.get_url_params cfg ctx st now) k) ∧
    dlookup (WeatherDailyStream.get_url_params cfg ctx st now) "start_date"
      = some (Value.str (strftimeYmd dt)) ∧
    dlookup (WeatherDailyStream.get_url_params cfg ctx st now) "end_date"
      = some (Value.str (strftimeYmd (addDays now (cfg.forecast_days.getD 7)))) ∧
    (∀ k ∈ windowRelativeKeys,
      ¬ hasKey (WeatherDailyStream.get_url_params cfg ctx st now) k) := by
  unfold WeatherHourlyStream.get_url_params WeatherDailyStream.get_url_params
  rw [hst]
  dsimp only
  rw [hparse]
  dsimp only
  refine ⟨?_, ?_, ?_, ?_, ?_, ?_⟩
  · rw [dlookup_dpop_ne _ _ _ (by decide), dlookup_dpop_ne _ _ _ (by decide),
        dlookup_dpop_ne _ _ _ (by decide), dlookup_dpop_ne _ _ _ (by decide),
        dlookup_dset_ne _ _ _ _ (by decide), dlookup_dset_self]
  · rw [dlookup_dpop_ne _ _ _ (by decide), dlookup_dpop_ne _ _ _ (by decide),
        dlookup_dpop_ne _ _ _ (by decide), dlookup_dpop_ne _ _ _ (by decide),
        dlookup_dset_self]
  · intro k hk
    fin_cases hk <;> simp [hasKey_dpop]
  · rw [dlookup_dpop_ne _ _ _ (by decide), dlookup_dpop_ne _ _ _ (by decide),
        dlookup_dpop_ne _ _ _ (by decide), dlookup_dpop_ne _ _ _ (by decide),
        dlookup_dset_ne _ _ _ _ (by decide), dlookup_dset_self]
  · rw [dlookup_dpop_ne _ _ _ (by decide), dlookup_dpop_ne _ _ _ (by decide),
        dlookup_dpop_ne _ _ _ (by decide), dlookup_dpop_ne _ _ _ (by decide),
        dlookup_dset_self]
  · intro k hk
    fin_cases hk <;> simp [hasKey_dpop]

/-- C1 witness: the amended claim applied at the concrete checkpoint
"2026-02-20T10:30". -/
theorem C1_checkpoint_roundtrip_witness :
    (stateStr (some (Value.str "2026-02-20T10:30")) = some "2026-02-20T10:30" ∧
     fromisoformat (pyReplaceZ "2026-02-20T10:30") =
       some ⟨2026, 2, 20, 10, 30, 0, none⟩) ∧
    dlookup (WeatherHourlyStream.get_url_params cfgNone (some ctx0)
        (some (Value.str "2026-02-20T10:30")) now0) "start_hour"
      = some (Value.str (strftimeYmdHM ⟨2026, 2, 20, 10, 30, 0, none⟩)) :=
  ⟨⟨by decide, by decide⟩,
   (C1_checkpoint_roundtrip cfgNone (some ctx0)
     (some (Value.str "2026-02-20T10:30")) now0 "2026-02-20T10:30"
     ⟨2026, 2, 20, 10, 30, 0, none⟩ (by decide) (by decide)).1⟩

/-- C3: for each stream that reads replication state (hourly, daily,
historical), a stored replication value that fails ISO8601 parsing yields
exactly the parameter set of the no-state run. -/
theorem C3_malformed_checkpoint_fallback (cfg : Config) (ctx : Option Context)
    (now : PyDateTime) (s : String)
    (h : fromisoformat (pyReplaceZ s) = none) :
    WeatherHourlyStream.get_url_params cfg ctx (some (Value.str s)) now =
      WeatherHourlyStream.get_url_params cfg ctx none now ∧
    WeatherDailyStream.get_url_params cfg ctx (some (Value.str s)) now =
      WeatherDailyStream.get_url_params cfg ctx none now ∧
    WeatherHistoricalStream.get_url_params cfg ctx (some (Value.str s)) now =
      WeatherHistoricalStream.get_url_params cfg ctx none now := by
  by_cases hs : s = ""
  · have he : stateStr (some (Value.str s)) = stateStr none := by
      simp [stateStr, hs]
    refine ⟨?_, ?_, ?_⟩ <;>
      · simp only [WeatherHourlyStream.get_url_params,
          WeatherDailyStream.get_url_params,
          WeatherHistoricalStream.get_url_params]
        rw [he]
  · have he : stateStr (some (Value.str s)) = some s := by
      simp [stateStr, hs]
    have hn : stateStr none = none := rfl
    refine ⟨?_, ?_, ?_⟩ <;>
      · simp only [WeatherHourlyStream.get_url_params,
          WeatherDailyStream.get_url_params,
          WeatherHistoricalStream.get_url_params]
        rw [he, hn]
        dsimp only
        rw [h]

/-- C3 witness: the unparsable checkpoint string "not-a-date". -/
theorem C3_malformed_checkpoint_fallback_witness :
    (fromisoformat (pyReplaceZ "not-a-date") = none) ∧
    WeatherHourlyStream.get_url_params cfgNone (some ctx0)
        (some (Value.str "not-a-date")) now0 =
      WeatherHourlyStream.get_url_params cfgNone (some ctx0) none now0 :=
  ⟨by decide,
   (C3_malformed_checkpoint_fallback cfgNone (some ctx0) now0 "not-a-date"
     (by decide)).1⟩

theorem strftimeYmd_ne_empty (dt : PyDateTime) : strftimeYmd dt ≠ "" := by
  unfold strftimeYmd
  intro h
  have hlen := congrArg String.length h
  simp only [String.length_append] at hlen
  have h1 : ("-" : String).length = 1 := rfl
  have h0 : ("" : String).length = 0 := rfl
  rw [h1, h0] at hlen
  omega

theorem historical_no_relative (cfg : Config) (ctx : Option Context)
    (st : Option Value) (now : PyDateTime) :
    ∀ k ∈ windowRelativeKeys,
      ¬ hasKey (WeatherHistoricalStream.get_url_params cfg ctx st now) k := by
  intro k hk
  have hb : ¬ hasKey (OpenMeteoStream.get_url_params cfg ctx) k := by
    apply not_hasKey_base_window cfg ctx k
    revert hk
    simp [windowRelativeKeys]
    tauto
  intro hc
  unfold WeatherHistoricalStream.get_url_params at hc
  dsimp only at hc
  rw [hasKey_dset, hasKey_dset, hasKey_dset] at hc
  fin_cases hk <;> simp_all

theorem historical_core_lookup (base : Dict) (sd ed hv : String) :
    hasKey (dset (dset (dset base "start_date" (Value.str sd)) "end_date"
      (Value.str ed)) "hourly" (Value.str hv)) "start_date" ∧
    hasKey (dset (dset (dset base "start_date" (Value.str sd)) "end_date"
      (Value.str ed)) "hourly" (Value.str hv)) "end_date" ∧
    dlookup (dset (dset (dset base "start_date" (Value.str sd)) "end_date"
      (Value.str ed)) "hourly" (Value.str hv)) "start_date" = some (Value.str sd) ∧
    dlookup (dset (dset (dset base "start_date" (Value.str sd)) "end_date"
      (Value.str ed)) "hourly" (Value.str hv)) "end_date" = some (Value.str ed) := by
  refine ⟨?_, ?_, ?_, ?_⟩
  · rw [hasKey_dset, hasKey_dset, hasKey_dset]; tauto
  · rw [hasKey_dset, hasKey_dset]; tauto
  · rw [dlookup_dset_ne _ _ _ _ (by decide), dlookup_dset_ne _ _ _ _ (by decide),
        dlookup_dset_self]
  · rw [dlookup_dset_ne _ _ _ _ (by decide), dlookup_dset_self]

/-- C9: the historical stream's parameter set always carries both `start_date`
and `end_date` and no relative window keys; `start_date` is the checkpoint's
date when a parseable checkpoint exists, else (with no configured start_date)
the date 30 days before now; `end_date` is the configured value when set, else
yesterday. -/
theorem C9_historical_absolute_window (cfg : Config) (ctx : Option Context)
    (st : Option Value) (now : PyDateTime) :
    hasKey (WeatherHistoricalStream.get_url_params cfg ctx st now) "start_date" ∧
    hasKey (WeatherHistoricalStream.get_url_params cfg ctx st now) "end_date" ∧
    (∀ k ∈ windowRelativeKeys,
      ¬ hasKey (WeatherHistoricalStream.get_url_params cfg ctx st now) k) ∧
    (∀ dt, (stateStr st).bind (fun s => fromisoformat (pyReplaceZ s)) = some dt →
      dlookup (WeatherHistoricalStream.get_url_params cfg ctx st now) "start_date"
        = some (Value.str (strftimeYmd dt))) ∧
    ((stateStr st).bind (fun s => fromisoformat (pyReplaceZ s)) = none →
      optFalsy cfg.start_date = true →
      dlookup (WeatherHistoricalStream.get_url_params cfg ctx st now) "start_date"
        = some (Value.str (strftimeYmd (addDays now (-30))))) ∧
    (optFalsy cfg.end_date = true →
      dlookup (WeatherHistoricalStream.get_url_params cfg ctx st now) "end_date"
        = some (Value.str (strftimeYmd (addDays now (-1))))) ∧
    (∀ e, cfg.end_date = some e → e ≠ "" →
      dlookup (WeatherHistoricalStream.get_url_params cfg ctx st now) "end_date"
        = some (Value.str e)) := by
  unfold WeatherHistoricalStream.get_url_params
  cases hs : stateStr st with
  | none =>
    dsimp only
    obtain ⟨hc1, hc2, hc3, hc4⟩ := historical_core_lookup
      (OpenMeteoStream.get_url_params cfg ctx)
      (if optFalsy cfg.start_date then strftimeYmd (addDays now (-30))
        else cfg.start_date.getD "")
      (if optFalsy cfg.end_date then strftimeYmd (addDays now (-1))
        else cfg.end_date.getD "")
      (String.intercalate "," (hourlyVarsOf cfg))
    refine ⟨hc1, hc2, ?_, ?_, ?_, ?_, ?_⟩
    · have := historical_no_relative cfg ctx st now
      unfold WeatherHistoricalStream.get_url_params at this
      rw [hs] at this
      exact this
    · intro dt hdt; simp at hdt
    · intro _ hf
      rw [hc3, if_pos hf]
    · intro hf
      rw [hc4, if_pos hf]
    · intro e he hne
      have hf : optFalsy cfg.end_date = false := by
        simp [optFalsy, he, hne]
      rw [hc4, hf]
      simp [he]
  | some ls =>
    dsimp only
    cases hp : fromisoformat (pyReplaceZ ls) with
    | none =>
      dsimp only
      obtain ⟨hc1, hc2, hc3, hc4⟩ := historical_core_lookup
        (OpenMeteoStream.get_url_params cfg ctx)
        (if optFalsy cfg.start_date then strftimeYmd (addDays now (-30))
          else cfg.start_date.getD "")
        (if optFalsy cfg.end_date then strftimeYmd (addDays now (-1))
          else cfg.end_date.getD "")
        (String.intercalate "," (hourlyVarsOf cfg))
      refine ⟨hc1, hc2, ?_, ?_, ?_, ?_, ?_⟩
      · have := historical_no_relative cfg ctx st now
        unfold WeatherHistoricalStream.get_url_params at this
        rw [hs] at this
        dsimp only at this
        rw [hp] at this
        exact this
      · intro dt hdt
        simp [hp] at hdt
      · intro _ hf
        rw [hc3, if_pos hf]
      · intro hf
        rw [hc4, if_pos hf]
      · intro e he hne
        have hf : optFalsy cfg.end_date = false := by
          simp [optFalsy, he, hne]
        rw [hc4, hf]
        simp [he]
    | some dt0 =>
      dsimp only
      obtain ⟨hc1, hc2, hc3, hc4⟩ := historical_core_lookup
        (OpenMeteoStream.get_url_params cfg ctx)
        (if optFalsy (some (strftimeYmd dt0)) then strftimeYmd (addDays now (-30))
          else (some (strftimeYmd dt0)).getD "")
        (if optFalsy cfg.end_date then strftimeYmd (addDays now (-1))
          else cfg.end_date.getD "")
        (String.intercalate "," (hourlyVarsOf cfg))
      have hnf : optFalsy (some (strftimeYmd dt0)) = false := by
        simp [optFalsy, strftimeYmd_ne_empty dt0]
      refine ⟨hc1, hc2, ?_, ?_, ?_, ?_, ?_⟩
      · have := historical_no_relative cfg ctx st now
        unfold WeatherHistoricalStream.get_url_params at this
        rw [hs] at this
        dsimp only at this
        rw [hp] at this
        exact this
      · intro dt hdt
        rw [Option.some_bind, hp] at hdt
        injection hdt with hdt
        subst hdt
        rw [hc3, hnf]
        simp
      · intro hn
        simp [hp] at hn
      · intro hf
        rw [hc4, if_pos hf]
      · intro e he hne
        have hf : optFalsy cfg.end_date = false := by
          simp [optFalsy, he, hne]
        rw [hc4, hf]
        simp [he]

/-- C9 witness: no checkpoint, empty config start_date/end_date, so the window
is the 30-days-ago .. yesterday default. -/
theorem C9_historical_absolute_window_witness :
    (optFalsy cfgNone.start_date = true ∧ optFalsy cfgNone.end_date = true) ∧
    dlookup (WeatherHistoricalStream.get_url_params cfgNone (some ctx0) none now0)
        "start_date" = some (Value.str (strftimeYmd (addDays now0 (-30)))) ∧
    dlookup (WeatherHistoricalStream.get_url_params cfgNone (some ctx0) none now0)
        "end_date" = some (Value.str (strftimeYmd (addDays now0 (-1)))) :=
  ⟨⟨by decide, by decide⟩,
   (C9_historical_absolute_window cfgNone (some ctx0) none now0).2.2.2.2.1
     (by decide) (by decide),
   (C9_historical_absolute_window cfgNone (some ctx0) none now0).2.2.2.2.2.1
     (by decide)⟩

theorem mem_dkeys_hourlyRecordBase (nm : String) (off : Int) (resp : WeatherResp)
    (tv : TimeVal) (f : String) :
    f ∈ dkeys (hourlyRecordBase nm off resp tv) ↔
      f ∈ ["location_name", "latitude", "longitude", "time", "time_unix"] := by
  unfold hourlyRecordBase
  cases tv with
  | s sv =>
    dsimp only
    cases hp : fromisoformat sv <;> simp only [hp] <;>
      simp [mem_dkeys_dset, dkeys_nil] <;> tauto
  | n t =>
    dsimp only
    simp [mem_dkeys_dset, dkeys_nil]
    tauto

/-- C4: for every stream, every configuration of the variable lists and every
response, each emitted record's field-name set equals the stream's declared
schema field-name set. -/
theorem C4_schema_record_parity :
    (∀ cfg nm off resp r, r ∈ WeatherHourlyStream.parse_response cfg nm off resp →
      ∀ f, f ∈ dkeys r ↔ f ∈ WeatherHourlyStream.schemaFields cfg) ∧
    (∀ cfg nm resp r, r ∈ WeatherDailyStream.parse_response cfg nm resp →
      ∀ f, f ∈ dkeys r ↔ f ∈ WeatherDailyStream.schemaFields cfg) ∧
    (∀ cfg nm resp r, r ∈ WeatherMinutely15Stream.parse_response cfg nm resp →
      ∀ f, f ∈ dkeys r ↔ f ∈ WeatherMinutely15Stream.schemaFields cfg) ∧
    (∀ cfg nm resp r, r ∈ WeatherHistoricalStream.parse_response cfg nm resp →
      ∀ f, f ∈ dkeys r ↔ f ∈ WeatherHistoricalStream.schemaFields cfg) ∧
    (∀ cfg nm resp r, r ∈ WeatherCurrentStream.parse_response cfg nm resp →
      ∀ f, f ∈ dkeys r ↔ f ∈ WeatherCurrentStream.schemaFields cfg) ∧
    (∀ cfg nm now resp r, r ∈ WeatherForecastStream.parse_response cfg nm now resp →
      ∀ f, f ∈ dkeys r ↔ f ∈ WeatherForecastStream.schemaFields) := by
  refine ⟨?_, ?_, ?_, ?_, ?_, ?_⟩
  · intro cfg nm off resp r hr f
    unfold WeatherHourlyStream.parse_response at hr
    obtain ⟨j, tv, hj, rfl⟩ := mem_flattenRows _ _ _ _ hr
    rw [mem_dkeys_foldl_dset, mem_dkeys_hourlyRecordBase]
    unfold WeatherHourlyStream.schemaFields
    simp only [List.mem_append, List.mem_cons, List.not_mem_nil, or_false]
  · intro cfg nm resp r hr f
    unfold WeatherDailyStream.parse_response at hr
    obtain ⟨j, tv, hj, rfl⟩ := mem_flattenRows _ _ _ _ hr
    rw [mem_dkeys_foldl_dset]
    unfold WeatherDailyStream.schemaFields
    simp [mem_dkeys_dset, dkeys_nil]
    tauto
  · intro cfg nm resp r hr f
    unfold WeatherMinutely15Stream.parse_response at hr
    obtain ⟨j, tv, hj, rfl⟩ := mem_flattenRows _ _ _ _ hr
    rw [mem_dkeys_foldl_dset]
    unfold WeatherMinutely15Stream.schemaFields
    simp [mem_dkeys_dset, dkeys_nil]
    tauto
  · intro cfg nm resp r hr f
    unfold WeatherHistoricalStream.parse_response at hr
    obtain ⟨j, tv, hj, rfl⟩ := mem_flattenRows _ _ _ _ hr
    rw [mem_dkeys_foldl_dset]
    unfold WeatherHistoricalStream.schemaFields
    simp [mem_dkeys_dset, dkeys_nil]
    tauto
  · intro cfg nm resp r hr f
    unfold WeatherCurrentStream.parse_response at hr
    rcases hc : resp.current with _ | ⟨p, rest⟩
    · rw [hc] at hr
      simp at hr
    · rw [hc] at hr
      simp only [List.mem_singleton] at hr
      subst hr
      rw [mem_dkeys_foldl_dset]
      unfold WeatherCurrentStream.schemaFields
      simp [mem_dkeys_dset, dkeys_nil]
      tauto
  · intro cfg nm now resp r hr f
    unfold WeatherForecastStream.parse_response at hr
    simp only [List.mem_singleton] at hr
    subst hr
    unfold WeatherForecastStream.schemaFields
    simp [mem_dkeys_dset, dkeys_nil]
    tauto

/-- A one-row daily/windowed response used by concrete witnesses: a single
date entry and no variable value arrays. -/
def resp1 : WeatherResp := ⟨none, none, some ⟨some [TimeVal.s "2026-02-15"], []⟩⟩

/-- The single record the daily stream emits for `resp1`. -/
def dailyRecord0 : Dict :=
  (WeatherDailyStream.parse_response cfgNone "Berlin" resp1).headD []

theorem C4_schema_record_parity_witness :
    (dailyRecord0 ∈ WeatherDailyStream.parse_response cfgNone "Berlin" resp1) ∧
    ("date" ∈ dkeys dailyRecord0 ↔
      "date" ∈ WeatherDailyStream.schemaFields cfgNone) :=
  ⟨by decide,
   C4_schema_record_parity.2.1 cfgNone "Berlin" resp1 dailyRecord0 (by decide) "date"⟩

theorem valueAt_of_len_le (values : List Value) (i : Nat)
    (h : values.length ≤ i) : valueAt values i = Value.null := by
  unfold valueAt
  induction values generalizing i with
  | nil => simp
  | cons v rest ih =>
    cases i with
    | zero => simp at h
    | succ j =>
      simp only [List.getD_cons_succ]
      exact ih j (by simpa using h)

/-- C5: for each windowed stream, an absent or empty time array yields zero
records, and a configured variable whose value array is missing or shorter
than the row index is emitted as null at that row. -/
theorem C5_nullfill_short_arrays :
    (∀ cfg nm off resp, timesOf resp = [] →
      WeatherHourlyStream.parse_response cfg nm off resp = []) ∧
    (∀ cfg nm off resp i r var,
      (WeatherHourlyStream.parse_response cfg nm off resp)[i]? = some r →
      var ∈ hourlyVarsOf cfg →
      (valuesFor (resp.block.getD ⟨none, []⟩) var).length ≤ i →
      dlookup r var = some Value.null) ∧
    (∀ cfg nm resp, timesOf resp = [] →
      WeatherDailyStream.parse_response cfg nm resp = []) ∧
    (∀ cfg nm resp i r var,
      (WeatherDailyStream.parse_response cfg nm resp)[i]? = some r →
      var ∈ dailyVarsOf cfg →
      (valuesFor (resp.block.getD ⟨none, []⟩) var).length ≤ i →
      dlookup r var = some Value.null) ∧
    (∀ cfg nm resp, timesOf resp = [] →
      WeatherMinutely15Stream.parse_response cfg nm resp = []) ∧
    (∀ cfg nm resp i r var,
      (WeatherMinutely15Stream.parse_response cfg nm resp)[i]? = some r →
      var ∈ minutely15VarsOf cfg →
      (valuesFor (resp.block.getD ⟨none, []⟩) var).length ≤ i →
      dlookup r var = some Value.null) ∧
    (∀ cfg nm resp, timesOf resp = [] →
      WeatherHistoricalStream.parse_response cfg nm resp = []) ∧
    (∀ cfg nm resp i r var,
      (WeatherHistoricalStream.parse_response cfg nm resp)[i]? = some r →
      var ∈ hourlyVarsOf cfg →
      (valuesFor (resp.block.getD ⟨none, []⟩) var).length ≤ i →
      dlookup r var = some Value.null) := by
  refine ⟨?_, ?_, ?_, ?_, ?_, ?_, ?_, ?_⟩
  · intro cfg nm off resp h0
    unfold timesOf at h0
    unfold WeatherHourlyStream.parse_response
    dsimp only
    rw [h0]
    rfl
  · intro cfg nm off resp i r var hr hv hlen
    unfold WeatherHourlyStream.parse_response at hr
    dsimp only at hr
    rw [flattenRows_getElem?] at hr
    obtain ⟨tv, htv, rfl⟩ := Option.map_eq_some'.mp hr
    rw [dlookup_foldl_dset_mem _ _ _ _ hv]
    rw [valueAt_of_len_le _ _ (by simpa using hlen)]
  · intro cfg nm resp h0
    unfold timesOf at h0
    unfold WeatherDailyStream.parse_response
    dsimp only
    rw [h0]
    rfl
  · intro cfg nm resp i r var hr hv hlen
    unfold WeatherDailyStream.parse_response at hr
    dsimp only at hr
    rw [flattenRows_getElem?] at hr
    obtain ⟨tv, htv, rfl⟩ := Option.map_eq_some'.mp hr
    rw [dlookup_foldl_dset_mem _ _ _ _ hv]
    rw [valueAt_of_len_le _ _ (by simpa using hlen)]
  · intro cfg nm resp h0
    unfold timesOf at h0
    unfold WeatherMinutely15Stream.parse_response
    dsimp only
    rw [h0]
    rfl
  · intro cfg nm resp i r var hr hv hlen
    unfold WeatherMinutely15Stream.parse_response at hr
    dsimp only at hr
    rw [flattenRows_getElem?] at hr
    obtain ⟨tv, htv, rfl⟩ := Option.map_eq_some'.mp hr
    rw [dlookup_foldl_dset_mem _ _ _ _ hv]
    rw [valueAt_of_len_le _ _ (by simpa using hlen)]
  · intro cfg nm resp h0
    unfold timesOf at h0
    unfold WeatherHistoricalStream.parse_response
    dsimp only
    rw [h0]
    rfl
  · intro cfg nm resp i r var hr hv hlen
    unfold WeatherHistoricalStream.parse_response at hr
    dsimp only at hr
    rw [flattenRows_getElem?] at hr
    obtain ⟨tv, htv, rfl⟩ := Option.map_eq_some'.mp hr
    rw [dlookup_foldl_dset_mem _ _ _ _ hv]
    rw [valueAt_of_len_le _ _ (by simpa using hlen)]

/-- The single record the hourly stream emits for `resp1` (UTC host). -/
def hourlyRecord0 : Dict :=
  (WeatherHourlyStream.parse_response cfgNone "Berlin" 0 resp1).headD []

theorem C5_nullfill_short_arrays_witness :
    ((WeatherHourlyStream.parse_response cfgNone "Berlin" 0 resp1)[0]?
        = some hourlyRecord0 ∧
     "temperature_2m" ∈ hourlyVarsOf cfgNone ∧
     (valuesFor (resp1.block.getD ⟨none, []⟩) "temperature_2m").length ≤ 0) ∧
    dlookup hourlyRecord0 "temperature_2m" = some Value.null :=
  ⟨⟨by decide, by decide, by decide⟩,
   C5_nullfill_short_arrays.2.1 cfgNone "Berlin" 0 resp1 0 hourlyRecord0
     "temperature_2m" (by decide) (by decide) (by decide)⟩

/-- Recognizer for integer-typed record values. -/
def isIntValue : Value → Bool
  | Value.int _ => true
  | _ => false

/-- C7 counterexample: the daily stream's record for an ISO8601 date entry
carries no derived Unix-epoch integer field at all — only the hourly stream
performs the dual time representation. -/
theorem C7_counterexample :
    (WeatherDailyStream.parse_response cfgNone "Berlin" resp1).length = 1 ∧
    (WeatherDailyStream.parse_response cfgNone "Berlin" resp1).all
      (fun r => r.all (fun p => !(isIntValue p.2))) = true ∧
    dlookup ((WeatherDailyStream.parse_response cfgNone "Berlin" resp1).headD [])
      "date" = some (Value.str "2026-02-15") :=
  ⟨by decide, by decide, by decide⟩

/-- C7 (amended): only the hourly stream carries both time representations.
For an hourly record whose upstream time entry is an ISO string, `time` keeps
the string and `time_unix` carries the derived epoch integer (null when the
string does not parse); for a Unix-integer entry, `time_unix` keeps the
integer and `time` carries the derived ISO string.  The daily, 15-minutely
and historical streams emit only the upstream representation. -/
theorem C7_hourly_time_normalization (cfg : Config) (nm : String) (off : Int)
    (resp : WeatherResp) (i : Nat) (r : Dict)
    (hr : (WeatherHourlyStream.parse_response cfg nm off resp)[i]? = some r)
    (ht : "time" ∉ hourlyVarsOf cfg) (htu : "time_unix" ∉ hourlyVarsOf cfg) :
    (∀ sv, (timesOf resp)[i]? = some (TimeVal.s sv) →
      dlookup r "time" = some (Value.str sv) ∧
      (∀ dt, fromisoformat sv = some dt →
        dlookup r "time_unix" = some (Value.int (pyTimestamp off dt))) ∧
      (fromisoformat sv = none → dlookup r "time_unix" = some Value.null)) ∧
    (∀ t, (timesOf resp)[i]? = some (TimeVal.n t) →
      dlookup r "time" = some (Value.str (pyFromtimestampUTCIso t)) ∧
      dlookup r "time_unix" = some (Value.int t)) := by
  unfold WeatherHourlyStream.parse_response at hr
  dsimp only at hr
  rw [flattenRows_getElem?] at hr
  obtain ⟨tv, htv, rfl⟩ := Option.map_eq_some'.mp hr
  have htimes : (timesOf resp)[i]? = some tv := by
    unfold timesOf
    simpa using htv
  constructor
  · intro sv hsv
    rw [htimes] at hsv
    injection hsv with hsv
    subst hsv
    refine ⟨?_, ?_, ?_⟩
    · rw [dlookup_foldl_dset_not_mem _ _ _ _ ht]
      unfold hourlyRecordBase
      dsimp only
      cases hp : fromisoformat sv <;> simp only [hp] <;>
        rw [dlookup_dset_ne _ _ _ _ (by decide), dlookup_dset_self] <;> rfl
    · intro dt hp
      rw [dlookup_foldl_dset_not_mem _ _ _ _ htu]
      unfold hourlyRecordBase
      dsimp only
      simp only [hp]
      rw [dlookup_dset_self]
    · intro hp
      rw [dlookup_foldl_dset_not_mem _ _ _ _ htu]
      unfold hourlyRecordBase
      dsimp only
      simp only [hp]
      rw [dlookup_dset_self]
  · intro t htn
    rw [htimes] at htn
    injection htn with htn
    subst htn
    refine ⟨?_, ?_⟩
    · rw [dlookup_foldl_dset_not_mem _ _ _ _ ht]
      unfold hourlyRecordBase
      dsimp only
      rw [dlookup_dset_self]
    · rw [dlookup_foldl_dset_not_mem _ _ _ _ htu]
      unfold hourlyRecordBase
      dsimp only
      rw [dlookup_dset_ne _ _ _ _ (by decide), dlookup_dset_self]

/-- A configuration selecting a single hourly variable. -/
def cfgVars : Config := { cfgNone with hourly_variables := some ["temperature_2m"] }

/-- A one-row hourly response with an ISO timestamp entry. -/
def resp2 : WeatherResp :=
  ⟨none, none, some ⟨some [TimeVal.s "2026-02-20T10:30"], []⟩⟩

/-- The single record the hourly stream emits for `resp2` (UTC host). -/
def hourlyRecord1 : Dict :=
  (WeatherHourlyStream.parse_response cfgVars "Berlin" 0 resp2).headD []

theorem C7_hourly_time_normalization_witness :
    ((WeatherHourlyStream.parse_response cfgVars "Berlin" 0 resp2)[0]?
        = some hourlyRecord1 ∧
     "time" ∉ hourlyVarsOf cfgVars ∧ "time_unix" ∉ hourlyVarsOf cfgVars ∧
     (timesOf resp2)[0]? = some (TimeVal.s "2026-02-20T10:30") ∧
     fromisoformat "2026-02-20T10:30" = some ⟨2026, 2, 20, 10, 30, 0, none⟩) ∧
    dlookup hourlyRecord1 "time_unix"
      = some (Value.int (pyTimestamp 0 ⟨2026, 2, 20, 10, 30, 0, none⟩)) :=
  ⟨⟨by decide, by decide, by decide, by decide, by decide⟩,
   ((C7_hourly_time_normalization cfgVars "Berlin" 0 resp2 0 hourlyRecord1
      (by decide) (by decide) (by decide)).1 "2026-02-20T10:30"
      (by decide)).2.1 ⟨2026, 2, 20, 10, 30, 0, none⟩ (by decide)⟩

/-- C8 counterexample: a response without a `current` object yields zero
records, not the claimed exactly-one. -/
theorem C8_counterexample :
    (WeatherCurrentStream.parse_response cfgNone "Berlin" ⟨none, none, []⟩).length
      = 0 := by decide

/-- C8 (amended): the current stream emits exactly one record per location when
the response carries a non-empty `current` object — with the object's `time`
and `interval` and one field per configured current variable, null for any
variable absent from the response — and zero records when the `current` object
is absent or empty. -/
theorem C8_current_single_record (cfg : Config) (nm : String) (resp : CurrentResp) :
    (resp.current = [] → WeatherCurrentStream.parse_response cfg nm resp = []) ∧
    (resp.current ≠ [] →
      (WeatherCurrentStream.parse_response cfg nm resp).length = 1 ∧
      dlookup ((WeatherCurrentStream.parse_response cfg nm resp).headD []) "time"
        = some (currentGet resp.current "time") ∧
      dlookup ((WeatherCurrentStream.parse_response cfg nm resp).headD []) "interval"
        = some (currentGet resp.current "interval") ∧
      ∀ var ∈ currentVarsOf cfg,
        dlookup ((WeatherCurrentStream.parse_response cfg nm resp).headD []) var
          = some (currentGet resp.current var)) := by
  unfold WeatherCurrentStream.parse_response
  cases hc : resp.current with
  | nil =>
    refine ⟨fun _ => rfl, fun hne => absurd rfl hne⟩
  | cons p rest =>
    refine ⟨fun h => absurd h (by simp), fun _ => ⟨rfl, ?_, ?_, ?_⟩⟩
    · dsimp only [List.headD]
      by_cases hm : "time" ∈ currentVarsOf cfg
      · rw [dlookup_foldl_dset_mem _ _ _ _ hm]
      · rw [dlookup_foldl_dset_not_mem _ _ _ _ hm,
            dlookup_dset_ne _ _ _ _ (by decide), dlookup_dset_self]
    · dsimp only [List.headD]
      by_cases hm : "interval" ∈ currentVarsOf cfg
      · rw [dlookup_foldl_dset_mem _ _ _ _ hm]
      · rw [dlookup_foldl_dset_not_mem _ _ _ _ hm, dlookup_dset_self]
    · intro var hm
      dsimp only [List.headD]
      rw [dlookup_foldl_dset_mem _ _ _ _ hm]

/-- A current-conditions response with `time` and `interval` but none of the
configured variables. -/
def resp3 : CurrentResp :=
  ⟨none, none, [("time", Value.str "2026-02-21T12:00"), ("interval", Value.int 900)]⟩

theorem C8_current_single_record_witness :
    (resp3.current ≠ []) ∧
    (WeatherCurrentStream.parse_response cfgNone "Berlin" resp3).length = 1 ∧
    dlookup ((WeatherCurrentStream.parse_response cfgNone "Berlin" resp3).headD [])
      "time" = some (currentGet resp3.current "time") :=
  ⟨by decide,
   ((C8_current_single_record cfgNone "Berlin" resp3).2 (by decide)).1,
   ((C8_current_single_record cfgNone "Berlin" resp3).2 (by decide)).2.1⟩
